import Mathlib

/-!
Formal model of the laser lighting controller (the modular `laser_simulator`
package): data model, beat synchronization, DMX channel buffer, control
setters, and the effect pipeline (visual preset, pulse, strobe, movement).

Python integers are modelled as `ℤ`, Python floats as `ℚ` where the source
only uses field arithmetic, and as `ℝ` where the source calls transcendental
functions (`math.sin`, `math.asin`, float `**`).  Python `int(x)` truncates
toward zero and is modelled by `pyIntQ` / `pyIntR`; Python `x % p` for floats
is `x - p * floor (x / p)` and is modelled by `pymodQ` / `pymodR`.
-/

/-- Python `int(x)` on a rational: truncation toward zero. -/
def pyIntQ (x : ℚ) : ℤ :=
  if x < 0 then -(Int.floor (-x)) else Int.floor x

/-- Python `int(x)` on a real: truncation toward zero. -/
noncomputable def pyIntR (x : ℝ) : ℤ :=
  if x < 0 then -(Int.floor (-x)) else Int.floor x

/-- Python float modulo on rationals: `x % p = x - p * floor (x / p)`
(sign of the divisor; used only with positive divisors in the source). -/
def pymodQ (x p : ℚ) : ℚ :=
  x - p * ((Int.floor (x / p) : ℤ) : ℚ)

/-- Python float modulo on reals. -/
noncomputable def pymodR (x p : ℝ) : ℝ :=
  x - p * ((Int.floor (x / p) : ℤ) : ℝ)

/-- Laser beam orientation (`LaserOrientation` in `models/enums.py`). -/
inductive LaserOrientation where
  | TOP
  | SIDE
deriving DecidableEq, Repr

/-- Visual patterns (`VisualPreset` in `models/enums.py`). -/
inductive VisualPreset where
  | GRID
  | BRACKET
  | L_BRACKET
  | S_CROSS
  | CROSS
  | L_CROSS
  | S_DBL_CROSS
  | DBL_CROSS
  | L_DBL_CROSS
  | CUBE
  | FOUR_CUBES
  | NINE_CUBES
deriving DecidableEq, Repr

/-- Movement directions (`ScrollDirection` in `models/enums.py`). -/
inductive ScrollDirection where
  | NONE
  | LEFT_TO_RIGHT
  | RIGHT_TO_LEFT
  | TOP_TO_BOTTOM
  | BOTTOM_TO_TOP
  | TO_TL
  | TO_TR
  | TO_BL
  | TO_BR
  | OUT_FROM_CENTER
  | TOWARDS_CENTER
  | LOOP_CENTER
  | PINWHEEL
  | SPOT
deriving DecidableEq, Repr

/-- Effect application mode (`EffectApplication` in `models/enums.py`). -/
inductive EffectApplication where
  | ALL
  | ALTERNATE
deriving DecidableEq, Repr

/-- Beat synchronization rates (`BeatRate` in `models/enums.py`). -/
inductive BeatRate where
  | OFF
  | ONE_THIRD
  | ONE_HALF
  | ONE
  | FOUR
deriving DecidableEq, Repr

/-- The `.value` string label of a `ScrollDirection` member. -/
def ScrollDirection.label : ScrollDirection → String
  | .NONE => "None"
  | .LEFT_TO_RIGHT => "L to R"
  | .RIGHT_TO_LEFT => "R to L"
  | .TOP_TO_BOTTOM => "T to B"
  | .BOTTOM_TO_TOP => "B to T"
  | .TO_TL => "To TL"
  | .TO_TR => "To TR"
  | .TO_BL => "To BL"
  | .TO_BR => "To BR"
  | .OUT_FROM_CENTER => "Out from Center"
  | .TOWARDS_CENTER => "Towards Center"
  | .LOOP_CENTER => "Loop Center"
  | .PINWHEEL => "Pinwheel"
  | .SPOT => "Spot"

/-- The `.value` string label of a `VisualPreset` member. -/
def VisualPreset.label : VisualPreset → String
  | .GRID => "Grid"
  | .BRACKET => "Bracket"
  | .L_BRACKET => "L Bracket"
  | .S_CROSS => "S Cross"
  | .CROSS => "Cross"
  | .L_CROSS => "L Cross"
  | .S_DBL_CROSS => "S Dbl Cross"
  | .DBL_CROSS => "Dbl Cross"
  | .L_DBL_CROSS => "L Dbl Cross"
  | .CUBE => "Cube"
  | .FOUR_CUBES => "4 Cubes"
  | .NINE_CUBES => "9 Cubes"

/-- The `.value` string label of an `EffectApplication` member. -/
def EffectApplication.label : EffectApplication → String
  | .ALL => "All"
  | .ALTERNATE => "Alternate"

/-- The `.value` string label of a `BeatRate` member. -/
def BeatRate.label : BeatRate → String
  | .OFF => "Off"
  | .ONE_THIRD => "1/3"
  | .ONE_HALF => "1/2"
  | .ONE => "1"
  | .FOUR => "4"

/-- A single laser (`Laser` dataclass in `models/laser.py`).  The range
checks of `__post_init__` live in the fallible constructor `mkLaser`. -/
structure Laser where
  id : String
  orientation : LaserOrientation
  brightness : ℤ
  dmx_address : ℤ
deriving DecidableEq, Repr

/-- Fallible `Laser` construction: `Laser.__post_init__` raises `ValueError`
when brightness is outside 0..255 or the DMX address is outside 1..512. -/
def mkLaser (id : String) (orientation : LaserOrientation)
    (brightness dmx_address : ℤ) : Except String Laser :=
  if ¬(0 ≤ brightness ∧ brightness ≤ 255) then
    .error "Brightness must be 0-255"
  else if ¬(1 ≤ dmx_address ∧ dmx_address ≤ 512) then
    .error "DMX address must be 1-512"
  else
    .ok ⟨id, orientation, brightness, dmx_address⟩

/-- `Laser.set_brightness`: raises `ValueError` outside 0..255, otherwise
stores the new brightness. -/
def Laser.set_brightness (l : Laser) (brightness : ℤ) : Except String Laser :=
  if ¬(0 ≤ brightness ∧ brightness ≤ 255) then
    .error "Brightness must be 0-255"
  else
    .ok { l with brightness := brightness }

/-- Is an `Except` result a success? -/
def exceptOk {ε α : Type} : Except ε α → Bool
  | .ok _ => true
  | .error _ => false

/-- C10: constructing a `Laser` with brightness outside 0..255 or DMX address
outside 1..512 fails, as does `set_brightness` with an out-of-range value;
in-range construction succeeds and yields exactly the given fields, so every
constructed `Laser` satisfies `0 ≤ brightness ≤ 255` and
`1 ≤ dmx_address ≤ 512`. -/
theorem laser_validation_at_construction :
    (∀ (id : String) (o : LaserOrientation) (b a : ℤ),
        0 ≤ b → b ≤ 255 → 1 ≤ a → a ≤ 512 →
        mkLaser id o b a = .ok ⟨id, o, b, a⟩) ∧
    (∀ (id : String) (o : LaserOrientation) (b a : ℤ),
        (b < 0 ∨ 255 < b) → exceptOk (mkLaser id o b a) = false) ∧
    (∀ (id : String) (o : LaserOrientation) (b a : ℤ),
        (a < 1 ∨ 512 < a) → exceptOk (mkLaser id o b a) = false) ∧
    (∀ (l : Laser) (b : ℤ), 0 ≤ b → b ≤ 255 →
        Laser.set_brightness l b = .ok { l with brightness := b }) ∧
    (∀ (l : Laser) (b : ℤ), (b < 0 ∨ 255 < b) →
        exceptOk (Laser.set_brightness l b) = false) ∧
    (∀ (id : String) (o : LaserOrientation) (b a : ℤ) (l : Laser),
        mkLaser id o b a = .ok l →
        0 ≤ l.brightness ∧ l.brightness ≤ 255 ∧
        1 ≤ l.dmx_address ∧ l.dmx_address ≤ 512) := by
  refine ⟨?_, ?_, ?_, ?_, ?_, ?_⟩
  · intro id o b a hb0 hb1 ha0 ha1
    simp [mkLaser, hb0, hb1, ha0, ha1]
  · intro id o b a h
    have : ¬(0 ≤ b ∧ b ≤ 255) := by omega
    simp [mkLaser, this, exceptOk]
  · intro id o b a h
    rcases Classical.em (0 ≤ b ∧ b ≤ 255) with hb | hb
    · have ha : ¬(1 ≤ a ∧ a ≤ 512) := by omega
      simp [mkLaser, hb, ha, exceptOk]
    · simp [mkLaser, hb, exceptOk]
  · intro l b hb0 hb1
    simp [Laser.set_brightness, hb0, hb1]
  · intro l b h
    have : ¬(0 ≤ b ∧ b ≤ 255) := by omega
    simp [Laser.set_brightness, this, exceptOk]
  · intro id o b a l h
    by_cases hb : 0 ≤ b ∧ b ≤ 255
    · by_cases ha : 1 ≤ a ∧ a ≤ 512
      · simp [mkLaser, hb, ha] at h
        rw [← h]
        exact ⟨hb.1, hb.2, ha.1, ha.2⟩
      · simp [mkLaser, hb, ha] at h
    · simp [mkLaser, hb] at h

/-- Witness for C10 at concrete inputs. -/
theorem laser_validation_at_construction_witness :
    mkLaser "top-0" .TOP 100 1 = .ok ⟨"top-0", .TOP, 100, 1⟩ ∧
    exceptOk (mkLaser "top-0" .TOP 300 1) = false ∧
    exceptOk (mkLaser "top-0" .TOP 100 600) = false := by
  refine ⟨?_, ?_, ?_⟩
  · exact laser_validation_at_construction.1 "top-0" .TOP 100 1
      (by decide) (by decide) (by decide) (by decide)
  · exact laser_validation_at_construction.2.1 "top-0" .TOP 300 1 (Or.inr (by decide))
  · exact laser_validation_at_construction.2.2.1 "top-0" .TOP 100 600 (Or.inr (by decide))

/-- Beat-rate frequency multiplier (`BeatSync.get_beat_rate_multiplier`). -/
def BeatSync.get_beat_rate_multiplier : BeatRate → ℚ
  | .ONE_THIRD => 3
  | .ONE_HALF => 2
  | .ONE => 1
  | .FOUR => 1 / 4
  | .OFF => 0

/-- Beat interval from BPM (`BeatSync.calculate_beat_interval`). -/
def BeatSync.calculate_beat_interval (bpm : ℤ) : ℚ :=
  if bpm ≤ 0 then 0 else 60 / (bpm : ℚ)

/-- Whether a beat-synced effect is active (`BeatSync.is_beat_effect_active`). -/
def BeatSync.is_beat_effect_active (beat_sync_enabled : Bool) (bpm : ℤ)
    (beat_rate : BeatRate) : Bool :=
  beat_sync_enabled && decide (0 < bpm) && decide (beat_rate ≠ .OFF) &&
    decide (0 < BeatSync.get_beat_rate_multiplier beat_rate)

/-- Beat phase in 0..1 and integer cycle count (`BeatSync.calculate_beat_phase`). -/
def BeatSync.calculate_beat_phase (current_time : ℚ) (beat_interval : ℚ)
    (beat_rate : BeatRate) : ℚ × ℤ :=
  let rate_multiplier := BeatSync.get_beat_rate_multiplier beat_rate
  if rate_multiplier ≤ 0 ∨ beat_interval ≤ 0 then (0, 0)
  else
    let effect_duration := beat_interval / rate_multiplier
    (pymodQ current_time effect_duration / effect_duration,
     (Int.floor (current_time / effect_duration)))

/-- Quantized (stepped) time (`BeatSync.calculate_quantized_time`). -/
def BeatSync.calculate_quantized_time (current_time : ℚ) (beat_interval : ℚ)
    (beat_rate : BeatRate) : ℚ :=
  let rate_multiplier := BeatSync.get_beat_rate_multiplier beat_rate
  if rate_multiplier ≤ 0 ∨ beat_interval ≤ 0 then current_time
  else
    let beat_duration := beat_interval / rate_multiplier
    ((Int.floor (current_time / beat_duration) : ℤ) : ℚ) * beat_duration

/-- The multiplier of every non-OFF rate is positive. -/
theorem beat_rate_multiplier_pos (r : BeatRate) (h : r ≠ .OFF) :
    0 < BeatSync.get_beat_rate_multiplier r := by
  cases r <;> simp_all [BeatSync.get_beat_rate_multiplier]


/-- C8: BeatSync's pure functions: `interval(bpm) = 60/bpm` for positive bpm
and 0 otherwise; the rate multiplier table is OFF:0, 1/3:3, 1/2:2, 1:1,
4:0.25; `is_beat_effect_active` holds iff enabled, bpm positive and rate not
OFF; and for positive bpm and non-OFF rate, quantized time is
`floor(t/d)·d`, phase is `(t mod d)/d` and cycle is `floor(t/d)` where
`d = interval/rateMultiplier`. -/
theorem beat_sync_stateless_spec :
    (∀ bpm : ℤ, 0 < bpm → BeatSync.calculate_beat_interval bpm = 60 / (bpm : ℚ)) ∧
    (∀ bpm : ℤ, bpm ≤ 0 → BeatSync.calculate_beat_interval bpm = 0) ∧
    (BeatSync.get_beat_rate_multiplier .OFF = 0 ∧
     BeatSync.get_beat_rate_multiplier .ONE_THIRD = 3 ∧
     BeatSync.get_beat_rate_multiplier .ONE_HALF = 2 ∧
     BeatSync.get_beat_rate_multiplier .ONE = 1 ∧
     BeatSync.get_beat_rate_multiplier .FOUR = 1 / 4) ∧
    (∀ (e : Bool) (bpm : ℤ) (r : BeatRate),
        BeatSync.is_beat_effect_active e bpm r = true ↔
          e = true ∧ 0 < bpm ∧ r ≠ .OFF) ∧
    (∀ (t : ℚ) (bpm : ℤ) (r : BeatRate), 0 < bpm → r ≠ .OFF →
        BeatSync.calculate_quantized_time t (BeatSync.calculate_beat_interval bpm) r =
          ((Int.floor (t / (BeatSync.calculate_beat_interval bpm / BeatSync.get_beat_rate_multiplier r)) : ℤ) : ℚ) *
            (BeatSync.calculate_beat_interval bpm / BeatSync.get_beat_rate_multiplier r)) ∧
    (∀ (t : ℚ) (bpm : ℤ) (r : BeatRate), 0 < bpm → r ≠ .OFF →
        BeatSync.calculate_beat_phase t (BeatSync.calculate_beat_interval bpm) r =
          (pymodQ t (BeatSync.calculate_beat_interval bpm / BeatSync.get_beat_rate_multiplier r) /
             (BeatSync.calculate_beat_interval bpm / BeatSync.get_beat_rate_multiplier r),
           Int.floor (t / (BeatSync.calculate_beat_interval bpm / BeatSync.get_beat_rate_multiplier r)))) := by
  have hint : ∀ bpm : ℤ, 0 < bpm → 0 < BeatSync.calculate_beat_interval bpm := by
    intro bpm h
    have : ¬ bpm ≤ 0 := by omega
    simp only [BeatSync.calculate_beat_interval, this, if_false]
    positivity
  refine ⟨?_, ?_, ?_, ?_, ?_, ?_⟩
  · intro bpm h
    have : ¬ bpm ≤ 0 := by omega
    simp [BeatSync.calculate_beat_interval, this]
  · intro bpm h
    simp [BeatSync.calculate_beat_interval, h]
  · norm_num [BeatSync.get_beat_rate_multiplier]
  · intro e bpm r
    constructor
    · intro h
      simp only [BeatSync.is_beat_effect_active, Bool.and_eq_true, decide_eq_true_eq] at h
      exact ⟨h.1.1.1, h.1.1.2, h.1.2⟩
    · rintro ⟨he, hb, hr⟩
      simp only [BeatSync.is_beat_effect_active, Bool.and_eq_true, decide_eq_true_eq]
      exact ⟨⟨⟨he, hb⟩, hr⟩, beat_rate_multiplier_pos r hr⟩
  · intro t bpm r hb hr
    have hm := beat_rate_multiplier_pos r hr
    have hi := hint bpm hb
    have hguard : ¬(BeatSync.get_beat_rate_multiplier r ≤ 0 ∨
        BeatSync.calculate_beat_interval bpm ≤ 0) := by
      push_neg
      exact ⟨hm, hi⟩
    simp [BeatSync.calculate_quantized_time, hguard]
  · intro t bpm r hb hr
    have hm := beat_rate_multiplier_pos r hr
    have hi := hint bpm hb
    have hguard : ¬(BeatSync.get_beat_rate_multiplier r ≤ 0 ∨
        BeatSync.calculate_beat_interval bpm ≤ 0) := by
      push_neg
      exact ⟨hm, hi⟩
    simp [BeatSync.calculate_beat_phase, hguard]

/-- Witness for C8 at concrete inputs (bpm 120, rate 1). -/
theorem beat_sync_stateless_spec_witness :
    BeatSync.calculate_beat_interval 120 = 60 / (120 : ℚ) ∧
    BeatSync.calculate_quantized_time (7/10) (BeatSync.calculate_beat_interval 120) .ONE =
      ((Int.floor ((7:ℚ)/10 / (BeatSync.calculate_beat_interval 120 / BeatSync.get_beat_rate_multiplier .ONE)) : ℤ) : ℚ) *
        (BeatSync.calculate_beat_interval 120 / BeatSync.get_beat_rate_multiplier .ONE) := by
  constructor
  · exact beat_sync_stateless_spec.1 120 (by decide)
  · exact beat_sync_stateless_spec.2.2.2.2.1 (7/10) 120 .ONE (by decide) (by decide)

/-- DMX channel update (`DMXController.update_laser` in `controllers/dmx.py`):
given the config `enabled` flag, the 512-slot universe buffer, and the laser's
`dmx_address` and `brightness`, clamps the brightness to 0..255 and writes it
at index `address - 1` when `1 ≤ address ≤ 512`, otherwise leaves the buffer
unchanged and reports failure. -/
def DMXController.update_laser (enabled : Bool) (dmx_data : Fin 512 → ℤ)
    (dmx_address brightness : ℤ) : (Fin 512 → ℤ) × Bool :=
  if ¬enabled then (dmx_data, false)
  else if 1 ≤ dmx_address ∧ dmx_address ≤ 512 then
    (fun j : Fin 512 =>
       if (j : ℤ) = dmx_address - 1 then max 0 (min 255 brightness) else dmx_data j,
     true)
  else (dmx_data, false)

/-- C9: for every address and every integer value, the enabled DMX
channel-update operation clamps the value into 0..255 and writes it at index
`address - 1` whenever `1 ≤ address ≤ 512`, and is a complete no-op (buffer
unchanged, no error, just a `false` return) whenever the address is outside
1..512. -/
theorem dmx_update_laser_clamps_and_ignores_out_of_range :
    (∀ (dmx_data : Fin 512 → ℤ) (address value : ℤ),
        1 ≤ address → address ≤ 512 →
        DMXController.update_laser true dmx_data address value =
          (fun j : Fin 512 =>
             if (j : ℤ) = address - 1 then max 0 (min 255 value) else dmx_data j,
           true)) ∧
    (∀ (dmx_data : Fin 512 → ℤ) (address value : ℤ),
        address < 1 ∨ 512 < address →
        DMXController.update_laser true dmx_data address value = (dmx_data, false)) := by
  constructor
  · intro dmx_data address value h1 h2
    simp [DMXController.update_laser, h1, h2]
  · intro dmx_data address value h
    have : ¬(1 ≤ address ∧ address ≤ 512) := by omega
    simp [DMXController.update_laser, this]

/-- Witness for C9 at concrete inputs (address 10 with value 300, address 600). -/
theorem dmx_update_laser_witness :
    DMXController.update_laser true (fun _ => 0) 10 300 =
      (fun j : Fin 512 => if (j : ℤ) = 10 - 1 then max 0 (min 255 300) else 0, true) ∧
    DMXController.update_laser true (fun _ => 0) 600 42 = (fun _ => 0, false) := by
  constructor
  · exact dmx_update_laser_clamps_and_ignores_out_of_range.1 (fun _ => 0) 10 300
      (by decide) (by decide)
  · exact dmx_update_laser_clamps_and_ignores_out_of_range.2 (fun _ => 0) 600 42
      (Or.inr (by decide))

/-- The full control record (`ControlsState` dataclass in `core/state.py`),
with its default field values. -/
structure ControlsState where
  dimmer : ℤ := 100
  strobe : ℤ := 0
  pulse : ℤ := 0
  effect_application : EffectApplication := .ALL
  visual_preset : VisualPreset := .GRID
  scroll_direction : ScrollDirection := .NONE
  laser_move_speed : ℤ := 60
  shocker_speed : ℤ := 50
  saber_speed : ℤ := 50
  scroll_laser_count : ℤ := 8
  scroll_fade : ℤ := 90
  scroll_phase : ℤ := 0
  loop_effect : Bool := false
  scroll_build_effect : Bool := false
  show_laser_origins : Bool := false
  beat_sync_enabled : Bool := false
  bpm : ℤ := 140
  beat_strobe_rate : BeatRate := .OFF
  beat_pulse_rate : BeatRate := .OFF
  beat_laser_move_speed_rate : BeatRate := .OFF
  beat_shocker_speed_rate : BeatRate := .OFF
  beat_saber_speed_rate : BeatRate := .OFF
deriving DecidableEq, Repr

/-- `ControlsState()` with all defaults. -/
def defaultControls : ControlsState := {}

/-- A dynamically-typed control value as it reaches `set_control`.  Python is
untyped here; this model covers the values of the kinds the controls actually
carry (integers, booleans, strings, and enum members). -/
inductive PyVal where
  | int (n : ℤ)
  | bool (b : Bool)
  | str (s : String)
  | sd (d : ScrollDirection)
  | vp (p : VisualPreset)
  | ea (a : EffectApplication)
  | br (r : BeatRate)
deriving DecidableEq, Repr

/-- All `ScrollDirection` members, in declaration order (iteration order of
`for direction in ScrollDirection`). -/
def allScrollDirections : List ScrollDirection :=
  [.NONE, .LEFT_TO_RIGHT, .RIGHT_TO_LEFT, .TOP_TO_BOTTOM, .BOTTOM_TO_TOP,
   .TO_TL, .TO_TR, .TO_BL, .TO_BR, .OUT_FROM_CENTER, .TOWARDS_CENTER,
   .LOOP_CENTER, .PINWHEEL, .SPOT]

/-- Lookup of a `ScrollDirection` by its `.value` label. -/
def scrollDirectionOfLabel (s : String) : Option ScrollDirection :=
  allScrollDirections.find? (fun d => d.label = s)

/-- Lookup of a `VisualPreset` by its `.value` label (`VisualPreset(value)`;
`none` models the `ValueError` case). -/
def visualPresetOfLabel (s : String) : Option VisualPreset :=
  ([.GRID, .BRACKET, .L_BRACKET, .S_CROSS, .CROSS, .L_CROSS, .S_DBL_CROSS,
    .DBL_CROSS, .L_DBL_CROSS, .CUBE, .FOUR_CUBES, .NINE_CUBES] :
      List VisualPreset).find? (fun p => p.label = s)

/-- Lookup of an `EffectApplication` by its `.value` label. -/
def effectApplicationOfLabel (s : String) : Option EffectApplication :=
  ([.ALL, .ALTERNATE] : List EffectApplication).find? (fun a => a.label = s)

/-- Lookup of a `BeatRate` by its `.value` label. -/
def beatRateOfLabel (s : String) : Option BeatRate :=
  ([.OFF, .ONE_THIRD, .ONE_HALF, .ONE, .FOUR] : List BeatRate).find?
    (fun r => r.label = s)

/-- Enum assignment in `_handle_osc_control` for a non-`scroll_direction`
enum field: `enum_class(value)` succeeds on the member's label (or on the
member itself) and the field is updated; on `ValueError` the current value is
kept.  The update is returned as `some new`, keep-current as `none`. -/
def enumFieldUpdate {α : Type} (ofLabel : String → Option α) (v : PyVal)
    (asEnum : PyVal → Option α) : Option α :=
  match asEnum v with
  | some x => some x
  | none =>
    match v with
    | .str s => ofLabel s
    | _ => none

/-- `scroll_direction` assignment in `_handle_osc_control`: linear search of
`ScrollDirection` members by label; any value matching no member (including
non-strings) falls back to `ScrollDirection.NONE`. -/
def scrollDirectionUpdate (v : PyVal) : ScrollDirection :=
  match v with
  | .str s =>
    match scrollDirectionOfLabel s with
    | some d => d
    | none => .NONE
  | _ => .NONE

/-- `LaserSimulator.set_control` (which delegates to `_handle_osc_control`).
Returns `some (returnValue, newControls)`; the boolean is the value returned
by `set_control`.  `none` marks a call whose Python behaviour stores a value
of a dynamic type outside this typed model (e.g. a string into the integer
field `dimmer`) — no claim exercises those calls.  Note the source applies
no range validation whatsoever to non-enum fields, and it returns `True` in
every non-raising path, including unknown control names and failed enum
conversions. -/
def LaserSimulator.set_control (c : ControlsState) (control_name : String)
    (value : PyVal) : Option (Bool × ControlsState) :=
  match control_name with
  | "dimmer" =>
    match value with
    | .int n => some (true, { c with dimmer := n })
    | _ => none
  | "strobe" =>
    match value with
    | .int n => some (true, { c with strobe := n })
    | _ => none
  | "pulse" =>
    match value with
    | .int n => some (true, { c with pulse := n })
    | _ => none
  | "laser_move_speed" =>
    match value with
    | .int n => some (true, { c with laser_move_speed := n })
    | _ => none
  | "shocker_speed" =>
    match value with
    | .int n => some (true, { c with shocker_speed := n })
    | _ => none
  | "saber_speed" =>
    match value with
    | .int n => some (true, { c with saber_speed := n })
    | _ => none
  | "scroll_laser_count" =>
    match value with
    | .int n => some (true, { c with scroll_laser_count := n })
    | _ => none
  | "scroll_fade" =>
    match value with
    | .int n => some (true, { c with scroll_fade := n })
    | _ => none
  | "scroll_phase" =>
    match value with
    | .int n => some (true, { c with scroll_phase := n })
    | _ => none
  | "bpm" =>
    match value with
    | .int n => some (true, { c with bpm := n })
    | _ => none
  | "loop_effect" =>
    match value with
    | .bool b => some (true, { c with loop_effect := b })
    | _ => none
  | "scroll_build_effect" =>
    match value with
    | .bool b => some (true, { c with scroll_build_effect := b })
    | _ => none
  | "show_laser_origins" =>
    match value with
    | .bool b => some (true, { c with show_laser_origins := b })
    | _ => none
  | "beat_sync_enabled" =>
    match value with
    | .bool b => some (true, { c with beat_sync_enabled := b })
    | _ => none
  | "scroll_direction" =>
    some (true, { c with scroll_direction := scrollDirectionUpdate value })
  | "visual_preset" =>
    match enumFieldUpdate visualPresetOfLabel value
        (fun v => match v with | .vp p => some p | _ => none) with
    | some p => some (true, { c with visual_preset := p })
    | none => some (true, c)
  | "effect_application" =>
    match enumFieldUpdate effectApplicationOfLabel value
        (fun v => match v with | .ea a => some a | _ => none) with
    | some a => some (true, { c with effect_application := a })
    | none => some (true, c)
  | "beat_strobe_rate" =>
    match enumFieldUpdate beatRateOfLabel value
        (fun v => match v with | .br r => some r | _ => none) with
    | some r => some (true, { c with beat_strobe_rate := r })
    | none => some (true, c)
  | "beat_pulse_rate" =>
    match enumFieldUpdate beatRateOfLabel value
        (fun v => match v with | .br r => some r | _ => none) with
    | some r => some (true, { c with beat_pulse_rate := r })
    | none => some (true, c)
  | "beat_laser_move_speed_rate" =>
    match enumFieldUpdate beatRateOfLabel value
        (fun v => match v with | .br r => some r | _ => none) with
    | some r => some (true, { c with beat_laser_move_speed_rate := r })
    | none => some (true, c)
  | "beat_shocker_speed_rate" =>
    match enumFieldUpdate beatRateOfLabel value
        (fun v => match v with | .br r => some r | _ => none) with
    | some r => some (true, { c with beat_shocker_speed_rate := r })
    | none => some (true, c)
  | "beat_saber_speed_rate" =>
    match enumFieldUpdate beatRateOfLabel value
        (fun v => match v with | .br r => some r | _ => none) with
    | some r => some (true, { c with beat_saber_speed_rate := r })
    | none => some (true, c)
  | _ => some (true, c)

/-- `LaserSimulator.get_control`: returns the current field value by name,
`None` for unknown names. -/
def LaserSimulator.get_control (c : ControlsState) (control_name : String) :
    Option PyVal :=
  match control_name with
  | "dimmer" => some (.int c.dimmer)
  | "strobe" => some (.int c.strobe)
  | "pulse" => some (.int c.pulse)
  | "laser_move_speed" => some (.int c.laser_move_speed)
  | "shocker_speed" => some (.int c.shocker_speed)
  | "saber_speed" => some (.int c.saber_speed)
  | "scroll_laser_count" => some (.int c.scroll_laser_count)
  | "scroll_fade" => some (.int c.scroll_fade)
  | "scroll_phase" => some (.int c.scroll_phase)
  | "bpm" => some (.int c.bpm)
  | "loop_effect" => some (.bool c.loop_effect)
  | "scroll_build_effect" => some (.bool c.scroll_build_effect)
  | "show_laser_origins" => some (.bool c.show_laser_origins)
  | "beat_sync_enabled" => some (.bool c.beat_sync_enabled)
  | "scroll_direction" => some (.sd c.scroll_direction)
  | "visual_preset" => some (.vp c.visual_preset)
  | "effect_application" => some (.ea c.effect_application)
  | "beat_strobe_rate" => some (.br c.beat_strobe_rate)
  | "beat_pulse_rate" => some (.br c.beat_pulse_rate)
  | "beat_laser_move_speed_rate" => some (.br c.beat_laser_move_speed_rate)
  | "beat_shocker_speed_rate" => some (.br c.beat_shocker_speed_rate)
  | "beat_saber_speed_rate" => some (.br c.beat_saber_speed_rate)
  | _ => none

/-- C1 counterexample: `set_control("dimmer", 150)` — out of the declared
[0,100] range — does not fail: it returns `True` and overwrites the stored
value, and `get_control("dimmer")` afterwards returns 150 (the previous
value 100 is lost). -/
theorem set_control_accepts_out_of_range_cex :
    LaserSimulator.set_control defaultControls "dimmer" (.int 150) =
      some (true, { defaultControls with dimmer := 150 }) ∧
    LaserSimulator.get_control { defaultControls with dimmer := 150 } "dimmer" =
      some (.int 150) ∧
    defaultControls.dimmer = 100 := by
  refine ⟨rfl, rfl, rfl⟩

/-- C1 (amended): `set_control` stores any integer for a numeric control and
returns `True` (no range validation), and `get_control` then returns exactly
the stored value — the round-trip holds for valid and invalid values alike;
for enum-labelled controls an unrecognized label never fails either:
`scroll_direction` falls back to `NONE` while the other enum controls keep
their previous value, and `set_control` still returns `True`. -/
theorem set_control_roundtrip_no_validation :
    (∀ (c : ControlsState) (n : ℤ),
        LaserSimulator.set_control c "dimmer" (.int n) =
          some (true, { c with dimmer := n }) ∧
        LaserSimulator.get_control { c with dimmer := n } "dimmer" =
          some (.int n)) ∧
    (∀ (c : ControlsState) (s : String), scrollDirectionOfLabel s = none →
        LaserSimulator.set_control c "scroll_direction" (.str s) =
          some (true, { c with scroll_direction := .NONE })) ∧
    (∀ (c : ControlsState) (s : String), visualPresetOfLabel s = none →
        LaserSimulator.set_control c "visual_preset" (.str s) =
          some (true, c)) := by
  refine ⟨?_, ?_, ?_⟩
  · intro c n
    exact ⟨rfl, rfl⟩
  · intro c s h
    simp [LaserSimulator.set_control, scrollDirectionUpdate, h]
  · intro c s h
    simp [LaserSimulator.set_control, enumFieldUpdate, h]

/-- Witness for C1's amended theorem at concrete inputs (the label "Bogus"
matches no enum member). -/
theorem set_control_roundtrip_no_validation_witness :
    LaserSimulator.set_control defaultControls "dimmer" (.int 42) =
      some (true, { defaultControls with dimmer := 42 }) ∧
    LaserSimulator.set_control defaultControls "scroll_direction" (.str "Bogus") =
      some (true, { defaultControls with scroll_direction := .NONE }) ∧
    LaserSimulator.set_control defaultControls "visual_preset" (.str "Bogus") =
      some (true, defaultControls) := by
  refine ⟨?_, ?_, ?_⟩
  · exact (set_control_roundtrip_no_validation.1 defaultControls 42).1
  · exact set_control_roundtrip_no_validation.2.1 defaultControls "Bogus" (by decide)
  · exact set_control_roundtrip_no_validation.2.2 defaultControls "Bogus" (by decide)

/-- Orientation of the laser at flat index `i` in the simulator's array:
indices 0..13 are the TOP line, 14..27 the SIDE line
(`LaserSimulator._initialize_lasers`). -/
def laserOrientationAt (i : Fin 28) : LaserOrientation :=
  if (i : ℕ) < 14 then .TOP else .SIDE

/-- Manual strobe on/off state and cycle count
(`StrobeEffect._calculate_manual_strobe_state`). -/
def StrobeEffect.calculate_manual_strobe_state (current_time : ℚ)
    (strobe_intensity : ℤ) : Bool × ℤ :=
  let strobe_frequency : ℚ := ((strobe_intensity : ℚ) / 100) * 20
  if strobe_frequency ≤ 0 then (true, 0)
  else
    let period := 1 / strobe_frequency
    let phase := pymodQ current_time period / period
    (decide (phase < 1 / 2), Int.floor (current_time * strobe_frequency))

/-- Beat-synced strobe on/off state and cycle count
(`StrobeEffect._calculate_beat_strobe_state`). -/
def StrobeEffect.calculate_beat_strobe_state (current_time : ℚ)
    (beat_interval : ℚ) (beat_strobe_rate : BeatRate) : Bool × ℤ :=
  let pc := BeatSync.calculate_beat_phase current_time beat_interval beat_strobe_rate
  (decide (pc.1 < 1 / 2), pc.2)

/-- Application of a computed strobe state to the brightness array
(`StrobeEffect._apply_strobe_state`): off zeroes everything; on with
ALTERNATE zeroes the SIDE line on even cycle counts and the TOP line on odd
ones; on with ALL leaves the array untouched. -/
def StrobeEffect.apply_strobe_state (c : ControlsState) (strobe_is_on : Bool)
    (cycle_count : ℤ) (b : Fin 28 → ℤ) : Fin 28 → ℤ :=
  if ¬strobe_is_on then fun _ => 0
  else if c.effect_application = .ALTERNATE then
    let is_top_active := cycle_count % 2 = 0
    fun i =>
      if (is_top_active ∧ laserOrientationAt i = .SIDE) ∨
         (¬is_top_active ∧ laserOrientationAt i = .TOP) then 0
      else b i
  else b

/-- The full strobe pass (`StrobeEffect.apply`). -/
def StrobeEffect.apply (c : ControlsState) (current_time : ℚ)
    (b : Fin 28 → ℤ) : Fin 28 → ℤ :=
  let beat_interval := BeatSync.calculate_beat_interval c.bpm
  let use_beat_strobe :=
    BeatSync.is_beat_effect_active c.beat_sync_enabled c.bpm c.beat_strobe_rate
  if use_beat_strobe then
    let sc := StrobeEffect.calculate_beat_strobe_state current_time beat_interval
      c.beat_strobe_rate
    StrobeEffect.apply_strobe_state c sc.1 sc.2 b
  else if 0 < c.strobe then
    let sc := StrobeEffect.calculate_manual_strobe_state current_time c.strobe
    StrobeEffect.apply_strobe_state c sc.1 sc.2 b
  else b

/-- C3 counterexample: during an "on" half-cycle with ALTERNATE application
and an even cycle count (0), the TOP laser at index 0 is left at its incoming
brightness 255 (not zeroed) while the SIDE laser at index 14 is zeroed — the
opposite of the claimed parity. -/
theorem strobe_alternate_parity_cex :
    StrobeEffect.apply_strobe_state
        { defaultControls with effect_application := .ALTERNATE }
        true 0 (fun _ => 255) (0 : Fin 28) = 255 ∧
    StrobeEffect.apply_strobe_state
        { defaultControls with effect_application := .ALTERNATE }
        true 0 (fun _ => 255) (14 : Fin 28) = 0 ∧
    (255 : ℤ) ≠ 0 := by
  refine ⟨?_, ?_, by decide⟩
  · simp [StrobeEffect.apply_strobe_state, laserOrientationAt]
  · have h14 : laserOrientationAt (14 : Fin 28) = .SIDE := by decide
    simp [StrobeEffect.apply_strobe_state, h14]

/-- C3 (amended): for every tick in which the strobe is in its "on"
half-cycle with ALTERNATE application, the SIDE group is zeroed when the
integer cycle count is even and the TOP group is zeroed when it is odd, so
only one of the two groups is ever lit during an on phase; the brightness of
the non-zeroed group is left unchanged. -/
theorem strobe_alternate_one_group_lit (c : ControlsState)
    (happ : c.effect_application = .ALTERNATE) (cycle_count : ℤ)
    (b : Fin 28 → ℤ) (i : Fin 28) :
    (cycle_count % 2 = 0 →
      (laserOrientationAt i = .SIDE →
        StrobeEffect.apply_strobe_state c true cycle_count b i = 0) ∧
      (laserOrientationAt i = .TOP →
        StrobeEffect.apply_strobe_state c true cycle_count b i = b i)) ∧
    (cycle_count % 2 ≠ 0 →
      (laserOrientationAt i = .TOP →
        StrobeEffect.apply_strobe_state c true cycle_count b i = 0) ∧
      (laserOrientationAt i = .SIDE →
        StrobeEffect.apply_strobe_state c true cycle_count b i = b i)) := by
  constructor
  · intro heven
    constructor
    · intro hside
      simp [StrobeEffect.apply_strobe_state, happ, heven, hside]
    · intro htop
      simp [StrobeEffect.apply_strobe_state, happ, heven, htop]
  · intro hodd
    constructor
    · intro htop
      simp [StrobeEffect.apply_strobe_state, happ, hodd, htop]
    · intro hside
      simp [StrobeEffect.apply_strobe_state, happ, hodd, hside]

/-- Witness for C3's amended theorem at concrete inputs (cycle count 0, one
TOP and one SIDE index). -/
theorem strobe_alternate_one_group_lit_witness :
    ({ defaultControls with effect_application := .ALTERNATE } :
        ControlsState).effect_application = .ALTERNATE ∧
    StrobeEffect.apply_strobe_state
        { defaultControls with effect_application := .ALTERNATE }
        true 0 (fun _ => 200) (14 : Fin 28) = 0 := by
  refine ⟨rfl, ?_⟩
  exact ((strobe_alternate_one_group_lit
    { defaultControls with effect_application := .ALTERNATE } rfl 0
    (fun _ => 200) (14 : Fin 28)).1 (by decide)).1 (by decide)

/-- Transient state of the Movement effect (`MovementEffect` instance state,
a `StatefulEffect` dict in `effects/movement.py`).  `last_progress` is the
per-key progress dict, modelled as an association list where an update
shadows older entries. -/
structure MoveState where
  last_progress : List (String × ℚ)
  built_lasers : Fin 28 → ℤ
  spot_lasers : Fin 28 → Bool
  spot_time_accumulator : ℚ
  last_direction_key : String

/-- `MovementEffect.reset_state`: cleared transient state. -/
def MovementEffect.reset_state : MoveState :=
  { last_progress := []
    built_lasers := fun _ => 0
    spot_lasers := fun _ => false
    spot_time_accumulator := 0
    last_direction_key := "" }

/-- `last_progress.get(key, 0)`. -/
def lookupProgress (l : List (String × ℚ)) (key : String) : ℚ :=
  match l.lookup key with
  | some v => v
  | none => 0

/-- `last_progress[key] = v` (dict assignment, modelled as a shadowing cons). -/
def storeProgress (l : List (String × ℚ)) (key : String) (v : ℚ) :
    List (String × ℚ) :=
  (key, v) :: l

/-- Python `str()` of a `ScrollDirection` member, as interpolated by the
f-string building the direction key. -/
def ScrollDirection.pyStr : ScrollDirection → String
  | .NONE => "ScrollDirection.NONE"
  | .LEFT_TO_RIGHT => "ScrollDirection.LEFT_TO_RIGHT"
  | .RIGHT_TO_LEFT => "ScrollDirection.RIGHT_TO_LEFT"
  | .TOP_TO_BOTTOM => "ScrollDirection.TOP_TO_BOTTOM"
  | .BOTTOM_TO_TOP => "ScrollDirection.BOTTOM_TO_TOP"
  | .TO_TL => "ScrollDirection.TO_TL"
  | .TO_TR => "ScrollDirection.TO_TR"
  | .TO_BL => "ScrollDirection.TO_BL"
  | .TO_BR => "ScrollDirection.TO_BR"
  | .OUT_FROM_CENTER => "ScrollDirection.OUT_FROM_CENTER"
  | .TOWARDS_CENTER => "ScrollDirection.TOWARDS_CENTER"
  | .LOOP_CENTER => "ScrollDirection.LOOP_CENTER"
  | .PINWHEEL => "ScrollDirection.PINWHEEL"
  | .SPOT => "ScrollDirection.SPOT"

/-- The `(direction, buildEffect)` key `f"{direction}_{build}"` used for the
direction-change reset. -/
def directionKey (d : ScrollDirection) (build : Bool) : String :=
  d.pyStr ++ "_" ++ (if build then "True" else "False")

/-- `bounce_period = max(period - scroll_laser_count, period * 0.5)` from
`MovementEffect._calculate_progress`. -/
def bouncePeriod (period count : ℚ) : ℚ :=
  max (period - count) (period * (1 / 2))

/-- `full_period = bounce_period * 2`. -/
def fullPeriod (period count : ℚ) : ℚ :=
  bouncePeriod period count * 2

/-- Movement progress (`MovementEffect._calculate_progress`): beat-quantized
time when beat-synced movement is active, then either the loop (bounce)
triangle fold or the plain sawtooth wrap. -/
def MovementEffect.calculate_progress (period : ℚ) (current_time : ℚ)
    (c : ControlsState) : ℚ :=
  let beat_interval := BeatSync.calculate_beat_interval c.bpm
  let use_beat_speed := BeatSync.is_beat_effect_active c.beat_sync_enabled
    c.bpm c.beat_laser_move_speed_rate
  let time_for_calc :=
    if use_beat_speed ∧ c.scroll_direction ≠ .NONE ∧ c.scroll_direction ≠ .SPOT then
      BeatSync.calculate_quantized_time current_time beat_interval
        c.beat_laser_move_speed_rate
    else current_time
  let effective_rate := (c.laser_move_speed : ℚ) / 3
  if c.loop_effect then
    let bounce_period := bouncePeriod period (c.scroll_laser_count : ℚ)
    let full_period := bounce_period * 2
    let phase := pymodQ (time_for_calc * effective_rate) full_period
    if phase < bounce_period then phase
    else full_period - phase
  else
    pymodQ (time_for_calc * effective_rate) period

/-- Wave falloff brightness (`MovementEffect._calculate_brightness`). -/
noncomputable def MovementEffect.calculate_brightness
    (distance_from_wave_center : ℚ) (base_brightness : ℤ)
    (c : ControlsState) : ℤ :=
  if distance_from_wave_center < (c.scroll_laser_count : ℚ) / 2 then
    let fade_factor : ℝ := if c.scroll_fade = 90 then 1 else 1 / 10
    let normalized_dist : ℚ :=
      distance_from_wave_center / ((c.scroll_laser_count : ℚ) / 2)
    let falloff : ℝ := (normalized_dist : ℝ) ^ (fade_factor * 2 + 1)
    pyIntR ((base_brightness : ℝ) * (1 - falloff))
  else 0

/-- Progress tracking for the build effect
(`MovementEffect._update_progress`): when the new progress is below the last
recorded one for `key` while the build effect is on and loop is off, the
sweep wrapped, so `built_lasers` is cleared; the new progress is always
stored. -/
def MovementEffect.update_progress (key : String) (progress : ℚ)
    (c : ControlsState) (st : MoveState) : MoveState :=
  let built :=
    if progress < lookupProgress st.last_progress key ∧
        c.scroll_build_effect ∧ ¬c.loop_effect then
      fun _ : Fin 28 => (0 : ℤ)
    else st.built_lasers
  { st with
      built_lasers := built
      last_progress := storeProgress st.last_progress key progress }

/-- Final scroll mask application (`MovementEffect._apply_scroll_mask`):
each lit laser's brightness is multiplied by `scroll_mask/base` (maxed with
`built_lasers/base` when the build effect is on). -/
def MovementEffect.apply_scroll_mask (c : ControlsState)
    (scroll_mask built_lasers : Fin 28 → ℤ) (base_brightness : ℤ)
    (b : Fin 28 → ℤ) : Fin 28 → ℤ :=
  fun i =>
    if 0 < b i then
      let mask_value : ℚ :=
        if 0 < base_brightness then (scroll_mask i : ℚ) / (base_brightness : ℚ)
        else 0
      let mask_value :=
        if c.scroll_build_effect then
          max mask_value ((built_lasers i : ℚ) / (base_brightness : ℚ))
        else mask_value
      pyIntQ ((b i : ℚ) * mask_value)
    else b i

/-- Index of laser `j` within its own 14-laser line. -/
def lineIndex (j : Fin 28) : ℕ :=
  if (j : ℕ) < 14 then (j : ℕ) else (j : ℕ) - 14

/-- The shared phase-duplication rule: the wave value at `progress`, maxed
with a second wave at `progress` shifted back by `(scroll_phase/100)·period`
(wrapped) when `scroll_phase > 0`. -/
noncomputable def phasedWave (period : ℚ) (c : ControlsState) (progress : ℚ)
    (wave : ℚ → ℤ) : ℤ :=
  let brightness1 := wave progress
  if 0 < c.scroll_phase then
    let phase_offset := ((c.scroll_phase : ℚ) / 100) * period
    let progress2 := pymodQ (progress - phase_offset + period) period
    max brightness1 (wave progress2)
  else brightness1

/-- Axis wave brightness (`get_wave_brightness` in
`MovementEffect._apply_axis_movement`). -/
noncomputable def axisWaveBrightness (count : ℤ) (is_reversed : Bool)
    (c : ControlsState) (base_brightness : ℤ) (current_progress : ℚ)
    (laser_index : ℕ) : ℤ :=
  let pos := if is_reversed then (count : ℚ) - current_progress else current_progress
  MovementEffect.calculate_brightness |(laser_index : ℚ) - pos| base_brightness c

/-- The scroll-mask writes of the axis loop: each index of the given line is
written once with `max(0, final)` (the mask starts all zero), every index of
the other line stays 0. -/
def maskOfLine (o : LaserOrientation) (finalB : ℕ → ℤ) : Fin 28 → ℤ :=
  fun j => if laserOrientationAt j = o then max 0 (finalB (lineIndex j)) else 0

/-- The in-place `built_lasers[idx] = max(built_lasers[idx], final)` writes
of the axis loop over one line. -/
def builtLineUpdate (o : LaserOrientation) (built : Fin 28 → ℤ)
    (finalB : ℕ → ℤ) : Fin 28 → ℤ :=
  fun j =>
    if laserOrientationAt j = o then max (built j) (finalB (lineIndex j))
    else built j

/-- Axis movement (`MovementEffect._apply_axis_movement`); returns the
scroll mask and the updated state.  The source's loop writes each line index
exactly once and maxes `built_lasers` in place when the build effect is on;
both writes are rendered as functions over the flat laser index. -/
noncomputable def MovementEffect.apply_axis_movement (st : MoveState)
    (c : ControlsState) (current_time : ℚ) (base_brightness : ℤ)
    (d : ScrollDirection) : (Fin 28 → ℤ) × MoveState :=
  let on_top := d = .LEFT_TO_RIGHT ∨ d = .RIGHT_TO_LEFT
  let count : ℤ := 14
  let orientation : LaserOrientation := if on_top then .TOP else .SIDE
  let is_reversed : Bool :=
    if on_top then decide (d = .RIGHT_TO_LEFT) else decide (d = .BOTTOM_TO_TOP)
  let period : ℚ := (count : ℚ) + (c.scroll_laser_count : ℚ)
  let progress := MovementEffect.calculate_progress period current_time c
  let key := (if on_top then "top" else "side") ++ "-" ++
    (if is_reversed then "True" else "False")
  let st := MovementEffect.update_progress key progress c st
  let finalB : ℕ → ℤ := fun i =>
    phasedWave period c progress
      (fun p => axisWaveBrightness count is_reversed c base_brightness p i)
  let built :=
    if c.scroll_build_effect then builtLineUpdate orientation st.built_lasers finalB
    else st.built_lasers
  (maskOfLine orientation finalB, { st with built_lasers := built })

/-- Distance of laser `j` from its line's center, `(count-1)/2 = 6.5`
(`MovementEffect._apply_center_movement`). -/
def distanceFromCenter (j : Fin 28) : ℚ :=
  if (j : ℕ) < 14 then |(j : ℚ) - ((14 - 1) / 2)|
  else |((j : ℕ) - 14 : ℕ) - ((14 - 1) / 2)|

/-- The per-laser `built_lasers[index] = max(built_lasers[index], final)`
writes of the center and diagonal loops (which run over all 28 lasers). -/
def builtAllUpdate (built finalB : Fin 28 → ℤ) : Fin 28 → ℤ :=
  fun j => max (built j) (finalB j)

/-- Center movement (`MovementEffect._apply_center_movement`).  The source
calls `_update_progress` once per laser with identical arguments; after the
first call the stored progress equals the new one, so the later calls change
nothing and the update is rendered once, before the per-laser writes. -/
noncomputable def MovementEffect.apply_center_movement (st : MoveState)
    (c : ControlsState) (current_time : ℚ) (base_brightness : ℤ)
    (d : ScrollDirection) : (Fin 28 → ℤ) × MoveState :=
  let max_dist : ℤ := Int.ceil (max ((((14 : ℚ)) - 1) / 2) ((((14 : ℚ)) - 1) / 2))
  let period : ℚ := (max_dist : ℚ) + (c.scroll_laser_count : ℚ)
  let progress1 := MovementEffect.calculate_progress period current_time c
  let st := MovementEffect.update_progress d.label progress1 c st
  let wave : Fin 28 → ℚ → ℤ := fun j p =>
    let wave_position := if d = .OUT_FROM_CENTER then p else period - p
    MovementEffect.calculate_brightness |distanceFromCenter j - wave_position|
      base_brightness c
  let finalB : Fin 28 → ℤ := fun j => phasedWave period c progress1 (wave j)
  let mask : Fin 28 → ℤ := fun j => finalB j
  let built :=
    if c.scroll_build_effect then builtAllUpdate st.built_lasers finalB
    else st.built_lasers
  (mask, { st with built_lasers := built })

/-- Parity-interleaved diagonal distance of laser `j` from the directed
origin corner (`MovementEffect._apply_diagonal_movement`). -/
def diagonalDist (d : ScrollDirection) (j : Fin 28) : ℤ :=
  let top_max : ℤ := 14 - 1
  let side_max : ℤ := 14 - 1
  let is_top := (j : ℕ) < 14
  let top_index : ℤ := (j : ℕ)
  let side_index : ℤ := (j : ℕ) - 14
  if d = .TO_BR then
    if is_top then top_index * 2 else side_index * 2 + 1
  else if d = .TO_TL then
    if is_top then (top_max - top_index) * 2 else (side_max - side_index) * 2 + 1
  else if d = .TO_TR then
    if is_top then top_index * 2 + 1 else (side_max - side_index) * 2
  else if d = .TO_BL then
    if is_top then (top_max - top_index) * 2 else side_index * 2 + 1
  else 0

/-- Diagonal movement (`MovementEffect._apply_diagonal_movement`); the
per-laser `_update_progress` calls collapse to one for the same reason as in
the center movement. -/
noncomputable def MovementEffect.apply_diagonal_movement (st : MoveState)
    (c : ControlsState) (current_time : ℚ) (base_brightness : ℤ)
    (d : ScrollDirection) : (Fin 28 → ℤ) × MoveState :=
  let max_dist : ℤ := (max 14 14 - 1) * 2 + 1
  let period : ℚ := (max_dist : ℚ) + (c.scroll_laser_count : ℚ)
  let progress1 := MovementEffect.calculate_progress period current_time c
  let st := MovementEffect.update_progress d.label progress1 c st
  let wave : Fin 28 → ℚ → ℤ := fun j p =>
    MovementEffect.calculate_brightness (|(diagonalDist d j : ℚ) - p| / 2)
      base_brightness c
  let finalB : Fin 28 → ℤ := fun j => phasedWave period c progress1 (wave j)
  let mask : Fin 28 → ℤ := fun j => finalB j
  let built :=
    if c.scroll_build_effect then builtAllUpdate st.built_lasers finalB
    else st.built_lasers
  (mask, { st with built_lasers := built })

/-- The pinwheel path: top-center to top-right, side-center to side-bottom,
top-center to top-left, side-center to side-top
(`MovementEffect._apply_pinwheel_effect`). -/
def pinwheelPath : List ℕ :=
  [7, 8, 9, 10, 11, 12, 13,
   21, 22, 23, 24, 25, 26, 27,
   6, 5, 4, 3, 2, 1, 0,
   20, 19, 18, 17, 16, 15, 14]

/-- Position of laser `j` along the pinwheel path (the path visits every
laser exactly once). -/
def pinwheelPathPos (j : Fin 28) : ℕ :=
  pinwheelPath.findIdx (fun x => x = (j : ℕ))

/-- Pinwheel movement (`MovementEffect._apply_pinwheel_effect`); the
`apply_wave` loop writes `scroll_mask[path[i]] = max(old, brightness)` when
`brightness > 0`, rendered per laser via its path position; `built_lasers`
is not updated by this strategy. -/
noncomputable def MovementEffect.apply_pinwheel_effect (st : MoveState)
    (c : ControlsState) (current_time : ℚ) (base_brightness : ℤ) :
    (Fin 28 → ℤ) × MoveState :=
  let period : ℚ := (pinwheelPath.length : ℚ) + (c.scroll_laser_count : ℚ)
  let progress := MovementEffect.calculate_progress period current_time c
  let st := MovementEffect.update_progress ScrollDirection.PINWHEEL.label progress c st
  let waveAt : ℚ → Fin 28 → ℤ := fun p j =>
    MovementEffect.calculate_brightness |(pinwheelPathPos j : ℚ) - p|
      base_brightness c
  let mask : Fin 28 → ℤ := fun j =>
    let w1 := waveAt progress j
    let m1 := if 0 < w1 then max 0 w1 else 0
    if 0 < c.scroll_phase then
      let phase_offset := ((c.scroll_phase : ℚ) / 100) * period
      let progress2 := pymodQ (progress - phase_offset + period) period
      let w2 := waveAt progress2 j
      if 0 < w2 then max m1 w2 else m1
    else m1
  (mask, st)

/-- Spot movement (`MovementEffect._apply_spot_effect`).  `shuffled` is the
oracle for `random.shuffle(indices)`; the `while acc >= interval` drain is
rendered in closed form (`interval` is positive for every in-range speed).
Non-selected lasers are zeroed immediately; no wave or mask applies. -/
def MovementEffect.apply_spot_effect (st : MoveState) (c : ControlsState)
    (delta_time : ℚ) (shuffled : List ℕ) (b : Fin 28 → ℤ) :
    (Fin 28 → ℤ) × MoveState :=
  let frequency : ℚ := (1 + (30 - 1) * ((c.laser_move_speed : ℚ) - 1) / 99) * (1 / 2)
  let spot_change_interval := 1 / frequency
  let acc := st.spot_time_accumulator + delta_time
  let st :=
    if spot_change_interval ≤ acc then
      let acc := acc - spot_change_interval * ((Int.floor (acc / spot_change_interval) : ℤ) : ℚ)
      let spot : Fin 28 → Bool := fun j =>
        decide ((j : ℕ) ∈ shuffled.take (min c.scroll_laser_count 28).toNat)
      { st with spot_lasers := spot, spot_time_accumulator := acc }
    else { st with spot_time_accumulator := acc }
  (fun i => if st.spot_lasers i = false then 0 else b i, st)

/-- Dispatch of the non-spot, non-pinwheel strategies
(`MovementEffect._apply_other_movements`): axis, center and diagonal
directions fill the scroll mask; any other direction leaves it all zero. -/
noncomputable def MovementEffect.apply_other_movements (st : MoveState)
    (c : ControlsState) (current_time : ℚ) (base_brightness : ℤ) :
    (Fin 28 → ℤ) × MoveState :=
  let d := c.scroll_direction
  if d = .LEFT_TO_RIGHT ∨ d = .RIGHT_TO_LEFT ∨ d = .TOP_TO_BOTTOM ∨
      d = .BOTTOM_TO_TOP then
    MovementEffect.apply_axis_movement st c current_time base_brightness d
  else if d = .OUT_FROM_CENTER ∨ d = .TOWARDS_CENTER then
    MovementEffect.apply_center_movement st c current_time base_brightness d
  else if d = .TO_TL ∨ d = .TO_TR ∨ d = .TO_BL ∨ d = .TO_BR then
    MovementEffect.apply_diagonal_movement st c current_time base_brightness d
  else ((fun _ => 0), st)

/-- `MovementEffect.apply`: resets state when direction is NONE, resets and
re-keys when the `(direction, buildEffect)` key changed, then runs the
selected strategy and (except for spot) applies the scroll mask. -/
noncomputable def MovementEffect.apply (st : MoveState) (c : ControlsState)
    (current_time delta_time : ℚ) (shuffled : List ℕ) (base_brightness : ℤ)
    (b : Fin 28 → ℤ) : (Fin 28 → ℤ) × MoveState :=
  if c.scroll_direction = .NONE then (b, MovementEffect.reset_state)
  else
    let direction_key := directionKey c.scroll_direction c.scroll_build_effect
    let st :=
      if st.last_direction_key ≠ direction_key then
        { MovementEffect.reset_state with last_direction_key := direction_key }
      else st
    if c.scroll_direction = .SPOT then
      MovementEffect.apply_spot_effect st c delta_time shuffled b
    else if c.scroll_direction = .PINWHEEL then
      let ms := MovementEffect.apply_pinwheel_effect st c current_time base_brightness
      (MovementEffect.apply_scroll_mask c ms.1 ms.2.built_lasers base_brightness b,
       ms.2)
    else
      let ms := MovementEffect.apply_other_movements st c current_time base_brightness
      (MovementEffect.apply_scroll_mask c ms.1 ms.2.built_lasers base_brightness b,
       ms.2)

/-- `MovementEffect.is_active`: the effect runs only when enabled and the
direction is not NONE (`BaseEffect.enabled` starts true and nothing in the
simulator disables it). -/
def MovementEffect.is_active (enabled : Bool) (c : ControlsState) : Bool :=
  enabled && decide (c.scroll_direction ≠ .NONE)

/-- One manager-level movement step
(`EffectManager.apply_all_effects` restricted to the movement effect): the
effect's `apply` runs only when `is_active` holds; otherwise both the
brightness array and the effect state are untouched. -/
noncomputable def movementManagerStep (enabled : Bool) (st : MoveState)
    (c : ControlsState) (current_time delta_time : ℚ) (shuffled : List ℕ)
    (base_brightness : ℤ) (b : Fin 28 → ℤ) : (Fin 28 → ℤ) × MoveState :=
  if MovementEffect.is_active enabled c then
    MovementEffect.apply st c current_time delta_time shuffled base_brightness b
  else (b, st)

/-- A movement state carrying progress history from earlier
LEFT_TO_RIGHT ticks, used to exhibit C2's failure. -/
def noneTickState : MoveState :=
  { last_progress := [("top-False", 5)]
    built_lasers := fun i => if (i : ℕ) = 0 then 200 else 0
    spot_lasers := fun _ => false
    spot_time_accumulator := 0
    last_direction_key := directionKey .LEFT_TO_RIGHT false }

/-- C2 counterexample: a tick executed while `scroll_direction = NONE` does
not clear the Movement effect's transient state — the effect is inactive, so
the manager never invokes it and the accumulated state (here a stored
progress entry, a nonzero built laser and a direction key) survives the tick
unchanged, differing from the cleared initial state. -/
theorem movement_none_tick_keeps_state_cex :
    (movementManagerStep true noneTickState defaultControls 1 (1 / 60) [] 255
        (fun _ => 255)).2 = noneTickState ∧
    noneTickState.last_direction_key ≠ MovementEffect.reset_state.last_direction_key ∧
    defaultControls.scroll_direction = .NONE := by
  refine ⟨rfl, ?_, rfl⟩
  decide

/-- C2 (amended): a tick executed while `scrollDirection = NONE` leaves both
the brightness array and the Movement effect's transient state completely
unchanged: `is_active` is false for direction NONE, so the effect manager
skips the effect and the reset branch inside `apply` is never reached. -/
theorem movement_none_tick_is_noop (enabled : Bool) (st : MoveState)
    (c : ControlsState) (t dt : ℚ) (shuffled : List ℕ) (base : ℤ)
    (b : Fin 28 → ℤ) (h : c.scroll_direction = .NONE) :
    movementManagerStep enabled st c t dt shuffled base b = (b, st) := by
  have ha : MovementEffect.is_active enabled c = false := by
    simp [MovementEffect.is_active, h]
  simp [movementManagerStep, ha]

/-- Witness for C2's amended theorem at concrete inputs. -/
theorem movement_none_tick_is_noop_witness :
    movementManagerStep true MovementEffect.reset_state defaultControls 0 0 [] 255
        (fun _ => 0) = (fun _ => 0, MovementEffect.reset_state) :=
  movement_none_tick_is_noop true MovementEffect.reset_state defaultControls 0 0 []
    255 (fun _ => 0) rfl

/-- Progress of loop movement as the spec words it: bouncePeriod =
max(period − scrollLaserCount, period·0.5), fullPeriod = 2·bouncePeriod,
phase = (time·rate) mod fullPeriod, return phase below bouncePeriod and
fullPeriod − phase above it.  Stated from the spec for comparison with
`MovementEffect.calculate_progress`. -/
def specLoopProgress (period count rate t : ℚ) : ℚ :=
  let bounce := max (period - count) (period * (1 / 2))
  let full := 2 * bounce
  let phase := pymodQ (t * rate) full
  if phase < bounce then phase else full - phase

/-- Adding one full period to the dividend leaves the Python modulo
unchanged. -/
theorem pymodQ_add_self (x p : ℚ) (hp : p ≠ 0) :
    pymodQ (x + p) p = pymodQ x p := by
  unfold pymodQ
  rw [add_div, div_self hp, Int.floor_add_one]
  push_cast
  ring

/-- The bounce period is positive whenever the period is. -/
theorem bouncePeriod_pos (period count : ℚ) (hp : 0 < period) :
    0 < bouncePeriod period count := by
  have h : 0 < period * (1 / 2) := by positivity
  exact lt_of_lt_of_le h (le_max_right _ _)

/-- Beat-synced movement is never active with beat sync disabled. -/
theorem beat_inactive_of_disabled (bpm : ℤ) (r : BeatRate) :
    BeatSync.is_beat_effect_active false bpm r = false := by
  simp [BeatSync.is_beat_effect_active]

/-- C6: with loop on and beat sync off, the movement progress is exactly the
spec's triangle fold of `phase = (time·rate) mod fullPeriod` with
`bouncePeriod = max(period − scrollLaserCount, period·0.5)` and
`fullPeriod = 2·bouncePeriod`; the two fold branches agree at the fold point
(`fullPeriod − bouncePeriod = bouncePeriod`); and the progress is periodic:
shifting time by `fullPeriod / rate` leaves it unchanged. -/
theorem loop_progress_triangle_fold_periodic (c : ControlsState) (period t : ℚ)
    (hloop : c.loop_effect = true) (hbeat : c.beat_sync_enabled = false)
    (hp : 0 < period) (hspeed : 1 ≤ c.laser_move_speed) :
    MovementEffect.calculate_progress period t c =
      specLoopProgress period (c.scroll_laser_count : ℚ)
        ((c.laser_move_speed : ℚ) / 3) t ∧
    fullPeriod period (c.scroll_laser_count : ℚ) -
        bouncePeriod period (c.scroll_laser_count : ℚ) =
      bouncePeriod period (c.scroll_laser_count : ℚ) ∧
    MovementEffect.calculate_progress period
        (t + fullPeriod period (c.scroll_laser_count : ℚ) /
          ((c.laser_move_speed : ℚ) / 3)) c =
      MovementEffect.calculate_progress period t c := by
  have hbf := beat_inactive_of_disabled c.bpm c.beat_laser_move_speed_rate
  have hrate : ((c.laser_move_speed : ℚ) / 3) ≠ 0 := by
    have : (1 : ℚ) ≤ (c.laser_move_speed : ℚ) := by exact_mod_cast hspeed
    positivity
  have hBpos := bouncePeriod_pos period (c.scroll_laser_count : ℚ) hp
  have hF : bouncePeriod period (c.scroll_laser_count : ℚ) * 2 ≠ 0 := by positivity
  refine ⟨?_, ?_, ?_⟩
  · simp only [MovementEffect.calculate_progress, specLoopProgress, bouncePeriod,
      hbeat, hbf, hloop, Bool.false_eq_true, false_and, if_false, if_true,
      mul_comm]
  · unfold fullPeriod
    ring
  · have key : (t + fullPeriod period (c.scroll_laser_count : ℚ) /
        ((c.laser_move_speed : ℚ) / 3)) * ((c.laser_move_speed : ℚ) / 3) =
        t * ((c.laser_move_speed : ℚ) / 3) +
          bouncePeriod period (c.scroll_laser_count : ℚ) * 2 := by
      unfold fullPeriod
      field_simp
    simp only [MovementEffect.calculate_progress, hbeat, hbf, hloop,
      Bool.false_eq_true, false_and, if_false, if_true]
    rw [key, pymodQ_add_self _ _ hF]

/-- Witness for C6 at concrete inputs (period 22, defaults with loop on). -/
theorem loop_progress_triangle_fold_periodic_witness :
    ({ defaultControls with loop_effect := true } : ControlsState).loop_effect = true ∧
    MovementEffect.calculate_progress 22 1 { defaultControls with loop_effect := true } =
      specLoopProgress 22
        (({ defaultControls with loop_effect := true } : ControlsState).scroll_laser_count : ℚ)
        ((({ defaultControls with loop_effect := true } : ControlsState).laser_move_speed : ℚ) / 3) 1 := by
  refine ⟨rfl, ?_⟩
  exact (loop_progress_triangle_fold_periodic
    { defaultControls with loop_effect := true } 22 1 rfl rfl (by norm_num)
    (by decide)).1

/-- Storing a progress value makes it the recorded value for its key. -/
theorem lookupProgress_store (l : List (String × ℚ)) (key : String) (v : ℚ) :
    lookupProgress (storeProgress l key v) key = v := by
  simp [lookupProgress, storeProgress, List.lookup]

/-- An `update_progress` call always records the new progress under its key. -/
theorem update_progress_lookup (key : String) (p : ℚ) (c : ControlsState)
    (st : MoveState) :
    lookupProgress (MovementEffect.update_progress key p c st).last_progress key = p := by
  simp only [MovementEffect.update_progress]
  exact lookupProgress_store _ _ _

/-- An `update_progress` call whose wrap condition fails leaves the built
lasers untouched. -/
theorem update_progress_built_of_no_wrap (key : String) (p : ℚ)
    (c : ControlsState) (st : MoveState)
    (h : ¬(p < lookupProgress st.last_progress key ∧
        c.scroll_build_effect ∧ ¬c.loop_effect)) :
    (MovementEffect.update_progress key p c st).built_lasers = st.built_lasers := by
  simp only [MovementEffect.update_progress]
  rw [if_neg h]

/-- An `update_progress` call whose wrap condition holds clears the built
lasers. -/
theorem update_progress_built_of_wrap (key : String) (p : ℚ)
    (c : ControlsState) (st : MoveState)
    (h : p < lookupProgress st.last_progress key ∧
        c.scroll_build_effect ∧ ¬c.loop_effect) :
    (MovementEffect.update_progress key p c st).built_lasers = fun _ => 0 := by
  simp only [MovementEffect.update_progress]
  rw [if_pos h]

/-- C7: with the build effect on and loop off, feeding `update_progress` the
progress sequence [5, 10, 15, 2] under any fresh key clears `built_lasers`
to all-zero exactly once — the first three samples leave it untouched and
the wrap 15 → 2 at the fourth sample zeroes it — and every call stores the
new progress as the last recorded value for the key. -/
theorem build_wrap_resets_exactly_once (key : String) (c : ControlsState)
    (st0 : MoveState) (hb : c.scroll_build_effect = true)
    (hl : c.loop_effect = false)
    (hfresh : lookupProgress st0.last_progress key = 0) :
    (MovementEffect.update_progress key 5 c st0).built_lasers = st0.built_lasers ∧
    (MovementEffect.update_progress key 10 c
        (MovementEffect.update_progress key 5 c st0)).built_lasers =
      st0.built_lasers ∧
    (MovementEffect.update_progress key 15 c
        (MovementEffect.update_progress key 10 c
          (MovementEffect.update_progress key 5 c st0))).built_lasers =
      st0.built_lasers ∧
    (MovementEffect.update_progress key 2 c
        (MovementEffect.update_progress key 15 c
          (MovementEffect.update_progress key 10 c
            (MovementEffect.update_progress key 5 c st0)))).built_lasers =
      (fun _ => 0) ∧
    lookupProgress (MovementEffect.update_progress key 5 c st0).last_progress key = 5 ∧
    lookupProgress (MovementEffect.update_progress key 10 c
        (MovementEffect.update_progress key 5 c st0)).last_progress key = 10 ∧
    lookupProgress (MovementEffect.update_progress key 15 c
        (MovementEffect.update_progress key 10 c
          (MovementEffect.update_progress key 5 c st0))).last_progress key = 15 ∧
    lookupProgress (MovementEffect.update_progress key 2 c
        (MovementEffect.update_progress key 15 c
          (MovementEffect.update_progress key 10 c
            (MovementEffect.update_progress key 5 c st0)))).last_progress key = 2 := by
  have e1 := update_progress_built_of_no_wrap key 5 c st0 (by
    rw [hfresh]
    intro h
    exact absurd h.1 (by norm_num))
  have l1 := update_progress_lookup key 5 c st0
  have e2 := update_progress_built_of_no_wrap key 10 c
    (MovementEffect.update_progress key 5 c st0) (by
      rw [l1]
      intro h
      exact absurd h.1 (by norm_num))
  have l2 := update_progress_lookup key 10 c (MovementEffect.update_progress key 5 c st0)
  have e3 := update_progress_built_of_no_wrap key 15 c
    (MovementEffect.update_progress key 10 c
      (MovementEffect.update_progress key 5 c st0)) (by
      rw [l2]
      intro h
      exact absurd h.1 (by norm_num))
  have l3 := update_progress_lookup key 15 c
    (MovementEffect.update_progress key 10 c
      (MovementEffect.update_progress key 5 c st0))
  have e4 := update_progress_built_of_wrap key 2 c
    (MovementEffect.update_progress key 15 c
      (MovementEffect.update_progress key 10 c
        (MovementEffect.update_progress key 5 c st0))) (by
      rw [l3, hb, hl]
      norm_num)
  have l4 := update_progress_lookup key 2 c
    (MovementEffect.update_progress key 15 c
      (MovementEffect.update_progress key 10 c
        (MovementEffect.update_progress key 5 c st0)))
  refine ⟨e1, ?_, ?_, e4, l1, l2, l3, l4⟩
  · rw [e2, e1]
  · rw [e3, e2, e1]

/-- Witness for C7 at concrete inputs (key "top-False", build on, loop off,
starting from the cleared state). -/
theorem build_wrap_resets_exactly_once_witness :
    ({ defaultControls with scroll_build_effect := true } :
        ControlsState).scroll_build_effect = true ∧
    (MovementEffect.update_progress "top-False" 2
        { defaultControls with scroll_build_effect := true }
        (MovementEffect.update_progress "top-False" 15
          { defaultControls with scroll_build_effect := true }
          (MovementEffect.update_progress "top-False" 10
            { defaultControls with scroll_build_effect := true }
            (MovementEffect.update_progress "top-False" 5
              { defaultControls with scroll_build_effect := true }
              MovementEffect.reset_state)))).built_lasers =
      (fun _ => 0) := by
  refine ⟨rfl, ?_⟩
  exact (build_wrap_resets_exactly_once "top-False"
    { defaultControls with scroll_build_effect := true }
    MovementEffect.reset_state rfl rfl rfl).2.2.2.1

/-- TOP-line indices lit by each preset (`VisualPresetEffect._apply_*`;
`top_center = side_center = 14 // 2 = 7`, ranges written out). -/
def presetTopIndices : VisualPreset → List ℕ
  | .GRID => List.range 14
  | .BRACKET => [0, 1, 2, 11, 12, 13]
  | .L_BRACKET => [0, 1, 2, 3, 4, 9, 10, 11, 12, 13]
  | .S_CROSS => [6, 7]
  | .CROSS => [5, 6, 7, 8]
  | .L_CROSS => [4, 5, 6, 7, 8, 9]
  | .S_DBL_CROSS => [6, 7]
  | .DBL_CROSS => [5, 6, 7, 8]
  | .L_DBL_CROSS => [4, 5, 6, 7, 8, 9]
  | .CUBE => [0, 1, 12, 13]
  | .FOUR_CUBES => [0, 1, 6, 7, 12, 13]
  | .NINE_CUBES => [0, 1, 4, 5, 8, 9, 12, 13]

/-- SIDE-line indices lit by each preset (the duplicate entries in
L_DBL_CROSS reproduce the source's literal index list). -/
def presetSideIndices : VisualPreset → List ℕ
  | .GRID => List.range 14
  | .BRACKET => [0, 1, 2, 11, 12, 13]
  | .L_BRACKET => [0, 1, 2, 3, 4, 9, 10, 11, 12, 13]
  | .S_CROSS => [2, 3]
  | .CROSS => [2, 3, 4, 5]
  | .L_CROSS => [2, 3, 4, 5, 6, 7]
  | .S_DBL_CROSS => [2, 3, 10, 11]
  | .DBL_CROSS => [2, 3, 4, 5, 8, 9, 10, 11]
  | .L_DBL_CROSS => [2, 3, 4, 5, 6, 7, 6, 7, 8, 9, 10, 11]
  | .CUBE => [0, 1, 12, 13]
  | .FOUR_CUBES => [0, 1, 6, 7, 12, 13]
  | .NINE_CUBES => [0, 1, 4, 5, 8, 9, 12, 13]

/-- `VisualPresetEffect.apply`: zeroes every laser, then sets the selected
preset's indices to the base brightness.  The incoming brightness array is
unused because of the initial reset. -/
def VisualPresetEffect.apply (c : ControlsState) (base_brightness : ℤ)
    (_b : Fin 28 → ℤ) : Fin 28 → ℤ :=
  fun j =>
    if (laserOrientationAt j = .TOP ∧
          lineIndex j ∈ presetTopIndices c.visual_preset) ∨
       (laserOrientationAt j = .SIDE ∧
          lineIndex j ∈ presetSideIndices c.visual_preset) then
      base_brightness
    else 0

/-- `PulseEffect.is_active`. -/
def PulseEffect.is_active_flag (c : ControlsState) : Bool :=
  decide (0 < c.pulse) ||
    BeatSync.is_beat_effect_active c.beat_sync_enabled c.bpm c.beat_pulse_rate

/-- `StrobeEffect.is_active`. -/
def StrobeEffect.is_active_flag (c : ControlsState) : Bool :=
  decide (0 < c.strobe) ||
    BeatSync.is_beat_effect_active c.beat_sync_enabled c.bpm c.beat_strobe_rate

/-- Beat-synced pulse (`PulseEffect._apply_beat_synced_pulse`). -/
noncomputable def PulseEffect.apply_beat_synced_pulse (c : ControlsState)
    (current_time : ℚ) (beat_interval : ℚ) (b : Fin 28 → ℤ) : Fin 28 → ℤ :=
  let phase :=
    (BeatSync.calculate_beat_phase current_time beat_interval c.beat_pulse_rate).1
  let pulse_value : ℝ :=
    (Real.sin ((phase : ℝ) * Real.pi * 2 - Real.pi / 2) + 1) / 2
  let brightness_multiplier : ℝ := 0.2 + pulse_value * 0.8
  fun i => if 0 < b i then pyIntR ((b i : ℝ) * brightness_multiplier) else b i

/-- Pulse applied to all lasers simultaneously
(`PulseEffect._apply_all_pulse`). -/
noncomputable def PulseEffect.apply_all_pulse (time_phase : ℝ)
    (b : Fin 28 → ℤ) : Fin 28 → ℤ :=
  let pulse_value := (Real.sin time_phase + 1) / 2
  let brightness_mult : ℝ := 0.2 + pulse_value * 0.8
  fun i => if 0 < b i then pyIntR ((b i : ℝ) * brightness_mult) else b i

/-- The fixed 0.4 overlap fraction of the alternating pulse
(`overlap_opacity` in `PulseEffect._apply_alternate_pulse`). -/
noncomputable def overlapOpacity : ℝ := 0.4

/-- Alternating pulse between the TOP and SIDE lines
(`PulseEffect._apply_alternate_pulse`). -/
noncomputable def PulseEffect.apply_alternate_pulse (time_phase : ℝ)
    (b : Fin 28 → ℤ) : Fin 28 → ℤ :=
  let phi := Real.arcsin overlapOpacity
  let single_pulse_duration := Real.pi
  let start_delay := single_pulse_duration - phi
  let total_period := 2 * start_delay
  let master_phase := pymodR time_phase total_period
  let top_brightness_mult : ℝ :=
    if master_phase < single_pulse_duration then Real.sin master_phase else 0
  let side_phase0 := master_phase - start_delay
  let side_phase := if side_phase0 < 0 then side_phase0 + total_period else side_phase0
  let side_brightness_mult : ℝ :=
    if side_phase < single_pulse_duration then Real.sin side_phase else 0
  fun i =>
    if 0 < b i then
      if laserOrientationAt i = .TOP then pyIntR ((b i : ℝ) * top_brightness_mult)
      else pyIntR ((b i : ℝ) * side_brightness_mult)
    else b i

/-- Manual pulse (`PulseEffect._apply_manual_pulse`). -/
noncomputable def PulseEffect.apply_manual_pulse (c : ControlsState)
    (current_time : ℚ) (b : Fin 28 → ℤ) : Fin 28 → ℤ :=
  let pulse_frequency : ℚ := ((c.pulse : ℚ) / 100) * 6
  let time_phase : ℝ := (current_time : ℝ) * Real.pi * 2 * (pulse_frequency : ℝ)
  if c.effect_application = .ALTERNATE then
    PulseEffect.apply_alternate_pulse time_phase b
  else
    PulseEffect.apply_all_pulse time_phase b

/-- `PulseEffect.apply`: beat-synced pulse when active, else manual pulse
when `pulse > 0`, else no-op. -/
noncomputable def PulseEffect.apply (c : ControlsState) (current_time : ℚ)
    (b : Fin 28 → ℤ) : Fin 28 → ℤ :=
  let beat_interval := BeatSync.calculate_beat_interval c.bpm
  if BeatSync.is_beat_effect_active c.beat_sync_enabled c.bpm c.beat_pulse_rate then
    PulseEffect.apply_beat_synced_pulse c current_time beat_interval b
  else if 0 < c.pulse then
    PulseEffect.apply_manual_pulse c current_time b
  else b

/-- Master dimmer (`apply_dimmer` in `utils/helpers.py`). -/
def apply_dimmer (brightness : ℤ) (dimmer_percent : ℤ) : ℤ :=
  if dimmer_percent ≤ 0 then 0
  else if 100 ≤ dimmer_percent then brightness
  else pyIntQ ((brightness : ℚ) * ((dimmer_percent : ℚ) / 100))

/-- One full tick (`LaserSimulator.update` minus the external controllers):
reset every laser to 0, run VisualPreset, Pulse, Strobe and Movement in
order (each gated by its `is_active`, as `EffectManager.apply_all_effects`
does; the visual preset's `is_active` is the always-true base default), then
apply the master dimmer.  `DEFAULT_BRIGHTNESS = 255` is the base
brightness. -/
noncomputable def LaserSimulator.update (st : MoveState) (c : ControlsState)
    (current_time delta_time : ℚ) (shuffled : List ℕ) :
    (Fin 28 → ℤ) × MoveState :=
  let base : ℤ := 255
  let b0 : Fin 28 → ℤ := fun _ => 0
  let b1 := VisualPresetEffect.apply c base b0
  let b2 := if PulseEffect.is_active_flag c then
      PulseEffect.apply c current_time b1
    else b1
  let b3 := if StrobeEffect.is_active_flag c then
      StrobeEffect.apply c current_time b2
    else b2
  let r4 := movementManagerStep true st c current_time delta_time shuffled base b3
  (fun i => apply_dimmer (r4.1 i) c.dimmer, r4.2)

/-- The declared range invariants of `ControlsState` (spec §3; the subset
`ControlsState.validate` checks plus the declared enum-slider ranges). -/
def controlsValid (c : ControlsState) : Prop :=
  0 ≤ c.dimmer ∧ c.dimmer ≤ 100 ∧
  0 ≤ c.strobe ∧ c.strobe ≤ 100 ∧
  0 ≤ c.pulse ∧ c.pulse ≤ 100 ∧
  1 ≤ c.laser_move_speed ∧ c.laser_move_speed ≤ 100 ∧
  1 ≤ c.scroll_laser_count ∧ c.scroll_laser_count ≤ 14 ∧
  0 ≤ c.scroll_fade ∧ c.scroll_fade ≤ 100 ∧
  0 ≤ c.scroll_phase ∧ c.scroll_phase ≤ 100 ∧
  1 ≤ c.bpm ∧ c.bpm ≤ 300

/-- The Movement effect's state invariant: built-laser entries stay within
the brightness range. -/
def moveStateValid (st : MoveState) : Prop :=
  ∀ i, 0 ≤ st.built_lasers i ∧ st.built_lasers i ≤ 255

/-- Truncation of a nonnegative real is nonnegative. -/
theorem pyIntR_nonneg {x : ℝ} (h : 0 ≤ x) : 0 ≤ pyIntR x := by
  unfold pyIntR
  rw [if_neg (not_lt.mpr h)]
  exact Int.floor_nonneg.mpr h

/-- Truncation never exceeds a nonnegative integer bound on its input. -/
theorem pyIntR_le_int {x : ℝ} {n : ℤ} (hx : x ≤ (n : ℝ)) (hn : 0 ≤ n) :
    pyIntR x ≤ n := by
  unfold pyIntR
  split
  · rename_i hneg
    have h1 : (0 : ℝ) ≤ -x := by linarith
    have h2 : 0 ≤ Int.floor (-x) := Int.floor_nonneg.mpr h1
    omega
  · calc Int.floor x ≤ Int.floor ((n : ℝ)) := Int.floor_le_floor hx
      _ = n := Int.floor_intCast n

/-- Integer-times-multiplier truncation bounds for a multiplier in [0, 1]. -/
theorem pyIntR_mul_bounds (n : ℤ) (m : ℝ) (hn : 0 ≤ n) (hm0 : 0 ≤ m)
    (hm1 : m ≤ 1) :
    0 ≤ pyIntR ((n : ℝ) * m) ∧ pyIntR ((n : ℝ) * m) ≤ n := by
  have hn' : (0 : ℝ) ≤ (n : ℝ) := by exact_mod_cast hn
  have hx0 : 0 ≤ (n : ℝ) * m := mul_nonneg hn' hm0
  have hx1 : (n : ℝ) * m ≤ (n : ℝ) := by nlinarith
  exact ⟨pyIntR_nonneg hx0, pyIntR_le_int hx1 hn⟩

/-- Rational truncation of a nonnegative value is nonnegative. -/
theorem pyIntQ_nonneg {x : ℚ} (h : 0 ≤ x) : 0 ≤ pyIntQ x := by
  unfold pyIntQ
  rw [if_neg (not_lt.mpr h)]
  exact Int.floor_nonneg.mpr h

/-- Rational truncation never exceeds a nonnegative integer bound. -/
theorem pyIntQ_le_int {x : ℚ} {n : ℤ} (hx : x ≤ (n : ℚ)) (hn : 0 ≤ n) :
    pyIntQ x ≤ n := by
  unfold pyIntQ
  split
  · rename_i hneg
    have h1 : (0 : ℚ) ≤ -x := by linarith
    have h2 : 0 ≤ Int.floor (-x) := Int.floor_nonneg.mpr h1
    omega
  · calc Int.floor x ≤ Int.floor ((n : ℚ)) := Int.floor_le_floor hx
      _ = n := Int.floor_intCast n

/-- Integer-times-multiplier truncation bounds over the rationals. -/
theorem pyIntQ_mul_bounds (n : ℤ) (m : ℚ) (hn : 0 ≤ n) (hm0 : 0 ≤ m)
    (hm1 : m ≤ 1) :
    0 ≤ pyIntQ ((n : ℚ) * m) ∧ pyIntQ ((n : ℚ) * m) ≤ n := by
  have hn' : (0 : ℚ) ≤ (n : ℚ) := by exact_mod_cast hn
  have hx0 : 0 ≤ (n : ℚ) * m := mul_nonneg hn' hm0
  have hx1 : (n : ℚ) * m ≤ (n : ℚ) := by nlinarith
  exact ⟨pyIntQ_nonneg hx0, pyIntQ_le_int hx1 hn⟩

/-- Python float modulo lands in [0, p) for a positive divisor. -/
theorem pymodR_nonneg_lt (x p : ℝ) (hp : 0 < p) :
    0 ≤ pymodR x p ∧ pymodR x p < p := by
  unfold pymodR
  have hfloor := Int.floor_le (x / p)
  have hlt := Int.lt_floor_add_one (x / p)
  have h1 : p * ((Int.floor (x / p) : ℤ) : ℝ) ≤ x := by
    have := mul_le_mul_of_nonneg_left hfloor hp.le
    calc p * ((Int.floor (x / p) : ℤ) : ℝ) ≤ p * (x / p) := this
      _ = x := by field_simp
  have h2 : x < p * ((Int.floor (x / p) : ℤ) : ℝ) + p := by
    have := mul_lt_mul_of_pos_left hlt hp
    calc x = p * (x / p) := by field_simp
      _ < p * (((Int.floor (x / p) : ℤ) : ℝ) + 1) := this
      _ = p * ((Int.floor (x / p) : ℤ) : ℝ) + p := by ring
  exact ⟨by linarith, by linarith⟩

/-- The beat / manual-ALL pulse multiplier `0.2 + 0.8·(sin θ + 1)/2` lies in
[0, 1]. -/
theorem pulse_sine_mult_bounds (θ : ℝ) :
    0 ≤ (0.2 : ℝ) + (Real.sin θ + 1) / 2 * 0.8 ∧
    (0.2 : ℝ) + (Real.sin θ + 1) / 2 * 0.8 ≤ 1 := by
  have h1 := Real.neg_one_le_sin θ
  have h2 := Real.sin_le_one θ
  constructor <;> nlinarith

/-- Beat-synced pulse keeps each laser within [0, its incoming brightness]. -/
theorem pulse_beat_le (c : ControlsState) (t bi : ℚ) (b : Fin 28 → ℤ)
    (i : Fin 28) (h0 : 0 ≤ b i) :
    0 ≤ PulseEffect.apply_beat_synced_pulse c t bi b i ∧
    PulseEffect.apply_beat_synced_pulse c t bi b i ≤ b i := by
  simp only [PulseEffect.apply_beat_synced_pulse]
  split
  · exact pyIntR_mul_bounds (b i) _ h0
      (pulse_sine_mult_bounds _).1 (pulse_sine_mult_bounds _).2
  · exact ⟨h0, le_refl _⟩

/-- All-lasers manual pulse keeps each laser within [0, its incoming
brightness]. -/
theorem pulse_all_le (time_phase : ℝ) (b : Fin 28 → ℤ) (i : Fin 28)
    (h0 : 0 ≤ b i) :
    0 ≤ PulseEffect.apply_all_pulse time_phase b i ∧
    PulseEffect.apply_all_pulse time_phase b i ≤ b i := by
  simp only [PulseEffect.apply_all_pulse]
  split
  · exact pyIntR_mul_bounds (b i) _ h0
      (pulse_sine_mult_bounds _).1 (pulse_sine_mult_bounds _).2
  · exact ⟨h0, le_refl _⟩

/-- A sine clipped to its first half-period (zero past π) lies in [0, 1]
for nonnegative arguments. -/
theorem alt_sin_clip_bounds (x : ℝ) (hx : 0 ≤ x) :
    0 ≤ (if x < Real.pi then Real.sin x else 0) ∧
    (if x < Real.pi then Real.sin x else 0) ≤ 1 := by
  split
  · rename_i h
    exact ⟨Real.sin_nonneg_of_nonneg_of_le_pi hx h.le, Real.sin_le_one x⟩
  · norm_num

/-- Alternating manual pulse keeps each laser within [0, its incoming
brightness]: both group multipliers are a sine evaluated inside [0, π] (or
zero), hence lie in [0, 1]. -/
theorem pulse_alternate_le (time_phase : ℝ) (b : Fin 28 → ℤ) (i : Fin 28)
    (h0 : 0 ≤ b i) :
    0 ≤ PulseEffect.apply_alternate_pulse time_phase b i ∧
    PulseEffect.apply_alternate_pulse time_phase b i ≤ b i := by
  have hpi := Real.pi_pos
  have hphil := Real.arcsin_le_pi_div_two overlapOpacity
  have hsd0 : 0 < Real.pi - Real.arcsin overlapOpacity := by linarith
  have htp : 0 < 2 * (Real.pi - Real.arcsin overlapOpacity) := by linarith
  obtain ⟨hm0, hm1⟩ := pymodR_nonneg_lt time_phase _ htp
  simp only [PulseEffect.apply_alternate_pulse]
  split
  · have htop := alt_sin_clip_bounds
      (pymodR time_phase (2 * (Real.pi - Real.arcsin overlapOpacity))) hm0
    have hsp0 : 0 ≤ (if pymodR time_phase (2 * (Real.pi - Real.arcsin overlapOpacity)) -
        (Real.pi - Real.arcsin overlapOpacity) < 0 then
          pymodR time_phase (2 * (Real.pi - Real.arcsin overlapOpacity)) -
            (Real.pi - Real.arcsin overlapOpacity) +
            2 * (Real.pi - Real.arcsin overlapOpacity)
        else pymodR time_phase (2 * (Real.pi - Real.arcsin overlapOpacity)) -
            (Real.pi - Real.arcsin overlapOpacity)) := by
      split <;> linarith
    have hsidem := alt_sin_clip_bounds _ hsp0
    split
    · exact pyIntR_mul_bounds (b i) _ h0 htop.1 htop.2
    · exact pyIntR_mul_bounds (b i) _ h0 hsidem.1 hsidem.2
  · exact ⟨h0, le_refl _⟩

/-- The full pulse stage keeps each laser within [0, its incoming
brightness], and leaves a zero-brightness laser at zero. -/
theorem pulse_stage_le (c : ControlsState) (t : ℚ) (b : Fin 28 → ℤ)
    (i : Fin 28) (h0 : 0 ≤ b i) :
    0 ≤ PulseEffect.apply c t b i ∧ PulseEffect.apply c t b i ≤ b i := by
  simp only [PulseEffect.apply]
  split
  · exact pulse_beat_le c t _ b i h0
  · split
    · simp only [PulseEffect.apply_manual_pulse]
      split
      · exact pulse_alternate_le _ b i h0
      · exact pulse_all_le _ b i h0
    · exact ⟨h0, le_refl _⟩

/-- Applying a strobe state keeps each laser within [0, its incoming
brightness]. -/
theorem strobe_state_le (c : ControlsState) (strobe_is_on : Bool) (cycle : ℤ)
    (b : Fin 28 → ℤ) (i : Fin 28) (h0 : 0 ≤ b i) :
    0 ≤ StrobeEffect.apply_strobe_state c strobe_is_on cycle b i ∧
    StrobeEffect.apply_strobe_state c strobe_is_on cycle b i ≤ b i := by
  simp only [StrobeEffect.apply_strobe_state]
  split
  · exact ⟨le_refl 0, h0⟩
  · split
    · dsimp only
      split
      · exact ⟨le_refl 0, h0⟩
      · exact ⟨h0, le_refl _⟩
    · exact ⟨h0, le_refl _⟩

/-- The full strobe stage keeps each laser within [0, its incoming
brightness]. -/
theorem strobe_stage_le (c : ControlsState) (t : ℚ) (b : Fin 28 → ℤ)
    (i : Fin 28) (h0 : 0 ≤ b i) :
    0 ≤ StrobeEffect.apply c t b i ∧ StrobeEffect.apply c t b i ≤ b i := by
  simp only [StrobeEffect.apply]
  split
  · exact strobe_state_le c _ _ b i h0
  · split
    · exact strobe_state_le c _ _ b i h0
    · exact ⟨h0, le_refl _⟩

/-- The master dimmer keeps each laser within [0, its incoming
brightness] for any dimmer value. -/
theorem apply_dimmer_le (brightness dimmer_percent : ℤ) (h0 : 0 ≤ brightness) :
    0 ≤ apply_dimmer brightness dimmer_percent ∧
    apply_dimmer brightness dimmer_percent ≤ brightness := by
  unfold apply_dimmer
  split
  · exact ⟨le_refl 0, h0⟩
  · split
    · exact ⟨h0, le_refl _⟩
    · rename_i hlow hhigh
      have hd0 : (0 : ℚ) ≤ (dimmer_percent : ℚ) / 100 := by
        have : (0 : ℤ) < dimmer_percent := by omega
        positivity
      have hd1 : (dimmer_percent : ℚ) / 100 ≤ 1 := by
        have : dimmer_percent ≤ 100 := by omega
        have h100 : (dimmer_percent : ℚ) ≤ 100 := by exact_mod_cast this
        linarith
      exact pyIntQ_mul_bounds brightness _ h0 hd0 hd1

/-- The wave falloff brightness lies in [0, base] for nonnegative distance,
in-range laser count and nonnegative base. -/
theorem calculate_brightness_bounds (dist : ℚ) (base : ℤ) (c : ControlsState)
    (hd : 0 ≤ dist) (hcnt : 1 ≤ c.scroll_laser_count) (hbase : 0 ≤ base) :
    0 ≤ MovementEffect.calculate_brightness dist base c ∧
    MovementEffect.calculate_brightness dist base c ≤ base := by
  simp only [MovementEffect.calculate_brightness]
  split
  · rename_i hlt
    have hhalf : (0 : ℚ) < (c.scroll_laser_count : ℚ) / 2 := by
      have : (1 : ℚ) ≤ (c.scroll_laser_count : ℚ) := by exact_mod_cast hcnt
      linarith
    have hnd0 : (0 : ℝ) ≤ ((dist / ((c.scroll_laser_count : ℚ) / 2) : ℚ) : ℝ) := by
      have := div_nonneg hd hhalf.le
      exact_mod_cast this
    have hnd1 : ((dist / ((c.scroll_laser_count : ℚ) / 2) : ℚ) : ℝ) ≤ 1 := by
      have := (div_le_one hhalf).mpr hlt.le
      exact_mod_cast this
    have he0 : (0 : ℝ) ≤ (if c.scroll_fade = 90 then (1 : ℝ) else 1 / 10) * 2 + 1 := by
      split <;> norm_num
    have hf0 := Real.rpow_nonneg hnd0
      ((if c.scroll_fade = 90 then (1 : ℝ) else 1 / 10) * 2 + 1)
    have hf1 := Real.rpow_le_one hnd0 hnd1 he0
    exact pyIntR_mul_bounds base _ hbase (by linarith) (by linarith)
  · exact ⟨le_refl 0, hbase⟩

/-- The phase-duplicated wave inherits the wave's bounds. -/
theorem phasedWave_bounds (period : ℚ) (c : ControlsState) (progress : ℚ)
    (wave : ℚ → ℤ) (N : ℤ) (hw : ∀ p, 0 ≤ wave p ∧ wave p ≤ N) :
    0 ≤ phasedWave period c progress wave ∧
    phasedWave period c progress wave ≤ N := by
  simp only [phasedWave]
  split
  · exact ⟨le_trans (hw progress).1 (le_max_left _ _),
      max_le (hw progress).2 (hw _).2⟩
  · exact hw progress

/-- `update_progress` preserves the built-laser range invariant. -/
theorem update_progress_valid (key : String) (p : ℚ) (c : ControlsState)
    (st : MoveState) (hst : moveStateValid st) :
    moveStateValid (MovementEffect.update_progress key p c st) := by
  intro i
  simp only [MovementEffect.update_progress]
  split
  · exact ⟨le_refl 0, by norm_num⟩
  · exact hst i

/-- The visual preset stage produces brightnesses in {0, base}. -/
theorem visual_preset_bounds (c : ControlsState) (b0 : Fin 28 → ℤ)
    (j : Fin 28) :
    0 ≤ VisualPresetEffect.apply c 255 b0 j ∧
    VisualPresetEffect.apply c 255 b0 j ≤ 255 := by
  simp only [VisualPresetEffect.apply]
  split <;> norm_num

/-- The axis wave brightness lies in [0, 255]. -/
theorem axisWaveBrightness_bounds (cnt : ℤ) (rev : Bool) (c : ControlsState)
    (p : ℚ) (idx : ℕ) (hcnt : 1 ≤ c.scroll_laser_count) :
    0 ≤ axisWaveBrightness cnt rev c 255 p idx ∧
    axisWaveBrightness cnt rev c 255 p idx ≤ 255 := by
  simp only [axisWaveBrightness]
  exact calculate_brightness_bounds _ _ _ (abs_nonneg _) hcnt (by norm_num)

/-- The axis movement strategy yields a scroll mask within [0, 255] and
preserves the state invariant. -/
theorem maskOfLine_bounds (o : LaserOrientation) (finalB : ℕ → ℤ)
    (hf : ∀ n, 0 ≤ finalB n ∧ finalB n ≤ 255) (j : Fin 28) :
    0 ≤ maskOfLine o finalB j ∧ maskOfLine o finalB j ≤ 255 := by
  unfold maskOfLine
  split
  · exact ⟨le_max_left 0 _, max_le (by norm_num) (hf _).2⟩
  · norm_num

theorem builtLineUpdate_bounds (o : LaserOrientation) (built : Fin 28 → ℤ)
    (finalB : ℕ → ℤ) (hb : ∀ i, 0 ≤ built i ∧ built i ≤ 255)
    (hf : ∀ n, 0 ≤ finalB n ∧ finalB n ≤ 255) (j : Fin 28) :
    0 ≤ builtLineUpdate o built finalB j ∧ builtLineUpdate o built finalB j ≤ 255 := by
  unfold builtLineUpdate
  split
  · exact ⟨le_trans (hb j).1 (le_max_left _ _), max_le (hb j).2 (hf _).2⟩
  · exact hb j

theorem axis_movement_bounds (st : MoveState) (c : ControlsState) (t : ℚ)
    (d : ScrollDirection) (hst : moveStateValid st)
    (hcnt : 1 ≤ c.scroll_laser_count) :
    (∀ j, 0 ≤ (MovementEffect.apply_axis_movement st c t 255 d).1 j ∧
       (MovementEffect.apply_axis_movement st c t 255 d).1 j ≤ 255) ∧
    moveStateValid (MovementEffect.apply_axis_movement st c t 255 d).2 := by
  have hfin : ∀ (period : ℚ) (prog : ℚ) (rev : Bool) (idx : ℕ),
      0 ≤ phasedWave period c prog
          (fun p => axisWaveBrightness 14 rev c 255 p idx) ∧
      phasedWave period c prog
          (fun p => axisWaveBrightness 14 rev c 255 p idx) ≤ 255 :=
    fun period prog rev idx =>
      phasedWave_bounds period c prog _ 255
        (fun p => axisWaveBrightness_bounds 14 rev c p idx hcnt)
  constructor
  · intro j
    simp only [MovementEffect.apply_axis_movement]
    exact maskOfLine_bounds _ _ (fun n => hfin _ _ _ n) j
  · intro i
    simp only [MovementEffect.apply_axis_movement]
    split
    · exact builtLineUpdate_bounds _ _ _
        (fun k => update_progress_valid _ _ _ _ hst k)
        (fun n => hfin _ _ _ n) i
    · exact update_progress_valid _ _ _ _ hst i

/-- The all-laser built update stays within [0, 255]. -/
theorem builtAllUpdate_bounds (built finalB : Fin 28 → ℤ)
    (hb : ∀ i, 0 ≤ built i ∧ built i ≤ 255)
    (hf : ∀ j, 0 ≤ finalB j ∧ finalB j ≤ 255) (j : Fin 28) :
    0 ≤ builtAllUpdate built finalB j ∧ builtAllUpdate built finalB j ≤ 255 := by
  unfold builtAllUpdate
  exact ⟨le_trans (hb j).1 (le_max_left _ _), max_le (hb j).2 (hf _).2⟩

/-- The center movement strategy yields a scroll mask within [0, 255] and
preserves the state invariant. -/
theorem center_movement_bounds (st : MoveState) (c : ControlsState) (t : ℚ)
    (d : ScrollDirection) (hst : moveStateValid st)
    (hcnt : 1 ≤ c.scroll_laser_count) :
    (∀ j, 0 ≤ (MovementEffect.apply_center_movement st c t 255 d).1 j ∧
       (MovementEffect.apply_center_movement st c t 255 d).1 j ≤ 255) ∧
    moveStateValid (MovementEffect.apply_center_movement st c t 255 d).2 := by
  have hfin : ∀ (period prog : ℚ) (j : Fin 28),
      0 ≤ phasedWave period c prog (fun p =>
          MovementEffect.calculate_brightness
            |distanceFromCenter j - (if d = .OUT_FROM_CENTER then p else period - p)|
            255 c) ∧
      phasedWave period c prog (fun p =>
          MovementEffect.calculate_brightness
            |distanceFromCenter j - (if d = .OUT_FROM_CENTER then p else period - p)|
            255 c) ≤ 255 :=
    fun period prog j =>
      phasedWave_bounds period c prog _ 255
        (fun p => calculate_brightness_bounds _ _ _ (abs_nonneg _) hcnt (by norm_num))
  constructor
  · intro j
    simp only [MovementEffect.apply_center_movement]
    exact hfin _ _ j
  · intro i
    simp only [MovementEffect.apply_center_movement]
    split
    · exact builtAllUpdate_bounds _ _
        (fun k => update_progress_valid _ _ _ _ hst k) (fun j => hfin _ _ j) i
    · exact update_progress_valid _ _ _ _ hst i

/-- The diagonal movement strategy yields a scroll mask within [0, 255] and
preserves the state invariant. -/
theorem diagonal_movement_bounds (st : MoveState) (c : ControlsState) (t : ℚ)
    (d : ScrollDirection) (hst : moveStateValid st)
    (hcnt : 1 ≤ c.scroll_laser_count) :
    (∀ j, 0 ≤ (MovementEffect.apply_diagonal_movement st c t 255 d).1 j ∧
       (MovementEffect.apply_diagonal_movement st c t 255 d).1 j ≤ 255) ∧
    moveStateValid (MovementEffect.apply_diagonal_movement st c t 255 d).2 := by
  have hfin : ∀ (period prog : ℚ) (j : Fin 28),
      0 ≤ phasedWave period c prog (fun p =>
          MovementEffect.calculate_brightness (|(diagonalDist d j : ℚ) - p| / 2)
            255 c) ∧
      phasedWave period c prog (fun p =>
          MovementEffect.calculate_brightness (|(diagonalDist d j : ℚ) - p| / 2)
            255 c) ≤ 255 :=
    fun period prog j =>
      phasedWave_bounds period c prog _ 255
        (fun p => calculate_brightness_bounds _ _ _
          (by positivity) hcnt (by norm_num))
  constructor
  · intro j
    simp only [MovementEffect.apply_diagonal_movement]
    exact hfin _ _ j
  · intro i
    simp only [MovementEffect.apply_diagonal_movement]
    split
    · exact builtAllUpdate_bounds _ _
        (fun k => update_progress_valid _ _ _ _ hst k) (fun j => hfin _ _ j) i
    · exact update_progress_valid _ _ _ _ hst i

/-- The pinwheel strategy yields a scroll mask within [0, 255] and preserves
the state invariant. -/
theorem pinwheel_bounds (st : MoveState) (c : ControlsState) (t : ℚ)
    (hst : moveStateValid st) (hcnt : 1 ≤ c.scroll_laser_count) :
    (∀ j, 0 ≤ (MovementEffect.apply_pinwheel_effect st c t 255).1 j ∧
       (MovementEffect.apply_pinwheel_effect st c t 255).1 j ≤ 255) ∧
    moveStateValid (MovementEffect.apply_pinwheel_effect st c t 255).2 := by
  have hwave : ∀ (p : ℚ) (j : Fin 28),
      0 ≤ MovementEffect.calculate_brightness |(pinwheelPathPos j : ℚ) - p| 255 c ∧
      MovementEffect.calculate_brightness |(pinwheelPathPos j : ℚ) - p| 255 c ≤ 255 :=
    fun p j => calculate_brightness_bounds _ _ _ (abs_nonneg _) hcnt (by norm_num)
  constructor
  · intro j
    simp only [MovementEffect.apply_pinwheel_effect]
    set w1 := MovementEffect.calculate_brightness
      |(pinwheelPathPos j : ℚ) -
        MovementEffect.calculate_progress
          ((pinwheelPath.length : ℚ) + (c.scroll_laser_count : ℚ)) t c| 255 c with hw1
    have hm1 : 0 ≤ (if 0 < w1 then max 0 w1 else 0) ∧
        (if 0 < w1 then max 0 w1 else 0) ≤ 255 := by
      split
      · exact ⟨le_max_left 0 _, max_le (by norm_num) (hwave _ j).2⟩
      · norm_num
    split
    · split
      · refine ⟨le_trans hm1.1 (le_max_left _ _), ?_⟩
        exact max_le hm1.2 (hwave _ j).2
      · exact hm1
    · exact hm1
  · intro i
    simp only [MovementEffect.apply_pinwheel_effect]
    exact update_progress_valid _ _ _ _ hst i

/-- The non-spot, non-pinwheel dispatch yields a scroll mask within [0, 255]
and preserves the state invariant. -/
theorem other_movements_bounds (st : MoveState) (c : ControlsState) (t : ℚ)
    (hst : moveStateValid st) (hcnt : 1 ≤ c.scroll_laser_count) :
    (∀ j, 0 ≤ (MovementEffect.apply_other_movements st c t 255).1 j ∧
       (MovementEffect.apply_other_movements st c t 255).1 j ≤ 255) ∧
    moveStateValid (MovementEffect.apply_other_movements st c t 255).2 := by
  simp only [MovementEffect.apply_other_movements]
  split
  · exact axis_movement_bounds st c t _ hst hcnt
  · split
    · exact center_movement_bounds st c t _ hst hcnt
    · split
      · exact diagonal_movement_bounds st c t _ hst hcnt
      · exact ⟨fun j => by norm_num, hst⟩

/-- Applying the scroll mask with in-range mask and built values keeps each
laser within [0, its incoming brightness]. -/
theorem apply_scroll_mask_le (c : ControlsState) (mask built b : Fin 28 → ℤ)
    (i : Fin 28) (hmask : 0 ≤ mask i ∧ mask i ≤ 255)
    (hbuilt : 0 ≤ built i ∧ built i ≤ 255) (hb : 0 ≤ b i) :
    0 ≤ MovementEffect.apply_scroll_mask c mask built 255 b i ∧
    MovementEffect.apply_scroll_mask c mask built 255 b i ≤ b i := by
  simp only [MovementEffect.apply_scroll_mask]
  split
  · rw [if_pos (by norm_num : (0 : ℤ) < 255)]
    have hmv0 : (0 : ℚ) ≤ (mask i : ℚ) / ((255 : ℤ) : ℚ) := by
      have : (0 : ℚ) ≤ (mask i : ℚ) := by exact_mod_cast hmask.1
      positivity
    have hmv1 : (mask i : ℚ) / ((255 : ℤ) : ℚ) ≤ 1 := by
      rw [div_le_one (by norm_num)]
      exact_mod_cast hmask.2
    have hbv0 : (0 : ℚ) ≤ (built i : ℚ) / ((255 : ℤ) : ℚ) := by
      have : (0 : ℚ) ≤ (built i : ℚ) := by exact_mod_cast hbuilt.1
      positivity
    have hbv1 : (built i : ℚ) / ((255 : ℤ) : ℚ) ≤ 1 := by
      rw [div_le_one (by norm_num)]
      exact_mod_cast hbuilt.2
    split
    · exact pyIntQ_mul_bounds (b i) _ hb (le_trans hmv0 (le_max_left _ _))
        (max_le hmv1 hbv1)
    · exact pyIntQ_mul_bounds (b i) _ hb hmv0 hmv1
  · exact ⟨hb, le_refl _⟩

/-- The spot strategy only zeroes lasers or leaves them unchanged, and its
state keeps the incoming built lasers. -/
theorem spot_effect_bounds (st : MoveState) (c : ControlsState) (dt : ℚ)
    (shuffled : List ℕ) (b : Fin 28 → ℤ) (hst : moveStateValid st) :
    (∀ i, 0 ≤ b i →
        0 ≤ (MovementEffect.apply_spot_effect st c dt shuffled b).1 i ∧
        (MovementEffect.apply_spot_effect st c dt shuffled b).1 i ≤ b i) ∧
    moveStateValid (MovementEffect.apply_spot_effect st c dt shuffled b).2 := by
  constructor
  · intro i hb
    simp only [MovementEffect.apply_spot_effect]
    split
    · dsimp only
      split
      · exact ⟨le_refl 0, hb⟩
      · exact ⟨hb, le_refl _⟩
    · dsimp only
      split
      · exact ⟨le_refl 0, hb⟩
      · exact ⟨hb, le_refl _⟩
  · intro i
    simp only [MovementEffect.apply_spot_effect]
    split
    · exact hst i
    · exact hst i

/-- One movement pass keeps each laser within [0, 255] whenever the incoming
brightness, laser count and state are within range. -/
theorem movement_apply_bounds (st : MoveState) (c : ControlsState)
    (t dt : ℚ) (shuffled : List ℕ) (b : Fin 28 → ℤ) (hst : moveStateValid st)
    (hcnt : 1 ≤ c.scroll_laser_count) (hb : ∀ i, 0 ≤ b i ∧ b i ≤ 255) :
    ∀ i, 0 ≤ (MovementEffect.apply st c t dt shuffled 255 b).1 i ∧
      (MovementEffect.apply st c t dt shuffled 255 b).1 i ≤ 255 := by
  intro i
  simp only [MovementEffect.apply]
  split
  · exact hb i
  · have hst' : moveStateValid (if st.last_direction_key ≠
        directionKey c.scroll_direction c.scroll_build_effect then
          { MovementEffect.reset_state with
              last_direction_key :=
                directionKey c.scroll_direction c.scroll_build_effect }
        else st) := by
      split
      · intro k
        exact ⟨by norm_num [MovementEffect.reset_state],
          by norm_num [MovementEffect.reset_state]⟩
      · exact hst
    split
    · obtain ⟨hres, _⟩ := spot_effect_bounds _ c dt shuffled b hst'
      exact ⟨(hres i (hb i).1).1, le_trans (hres i (hb i).1).2 (hb i).2⟩
    · split
      · obtain ⟨hmask, hstv⟩ := pinwheel_bounds _ c t hst' hcnt
        have := apply_scroll_mask_le c _ _ b i (hmask i) (hstv i) (hb i).1
        exact ⟨this.1, le_trans this.2 (hb i).2⟩
      · obtain ⟨hmask, hstv⟩ := other_movements_bounds _ c t hst' hcnt
        have := apply_scroll_mask_le c _ _ b i (hmask i) (hstv i) (hb i).1
        exact ⟨this.1, le_trans this.2 (hb i).2⟩

/-- C4: for every laser, every control state satisfying the declared range
invariants, every movement state satisfying the built-laser range invariant,
and every time, delta-time and spot-shuffle input, a full tick (reset to 0,
VisualPreset, Pulse, Strobe, Movement, master dimmer) leaves every laser's
brightness in 0..255. -/
theorem tick_brightness_in_range (st : MoveState) (c : ControlsState)
    (t dt : ℚ) (shuffled : List ℕ) (hc : controlsValid c)
    (hst : moveStateValid st) :
    ∀ i, 0 ≤ (LaserSimulator.update st c t dt shuffled).1 i ∧
      (LaserSimulator.update st c t dt shuffled).1 i ≤ 255 := by
  obtain ⟨_, _, _, _, _, _, _, _, hcnt1, _, _⟩ := hc
  have hb1 : ∀ j, 0 ≤ VisualPresetEffect.apply c 255 (fun _ => 0) j ∧
      VisualPresetEffect.apply c 255 (fun _ => 0) j ≤ 255 :=
    visual_preset_bounds c _
  have hb2 : ∀ j,
      0 ≤ (if PulseEffect.is_active_flag c then
          PulseEffect.apply c t (VisualPresetEffect.apply c 255 (fun _ => 0))
        else VisualPresetEffect.apply c 255 (fun _ => 0)) j ∧
      (if PulseEffect.is_active_flag c then
          PulseEffect.apply c t (VisualPresetEffect.apply c 255 (fun _ => 0))
        else VisualPresetEffect.apply c 255 (fun _ => 0)) j ≤ 255 := by
    intro j
    split
    · have := pulse_stage_le c t _ j (hb1 j).1
      exact ⟨this.1, le_trans this.2 (hb1 j).2⟩
    · exact hb1 j
  set b2 := (if PulseEffect.is_active_flag c then
      PulseEffect.apply c t (VisualPresetEffect.apply c 255 (fun _ => 0))
    else VisualPresetEffect.apply c 255 (fun _ => 0)) with hb2def
  have hb3 : ∀ j,
      0 ≤ (if StrobeEffect.is_active_flag c then StrobeEffect.apply c t b2
        else b2) j ∧
      (if StrobeEffect.is_active_flag c then StrobeEffect.apply c t b2
        else b2) j ≤ 255 := by
    intro j
    split
    · have := strobe_stage_le c t b2 j (hb2 j).1
      exact ⟨this.1, le_trans this.2 (hb2 j).2⟩
    · exact hb2 j
  set b3 := (if StrobeEffect.is_active_flag c then StrobeEffect.apply c t b2
    else b2) with hb3def
  have hb4 : ∀ j,
      0 ≤ (movementManagerStep true st c t dt shuffled 255 b3).1 j ∧
      (movementManagerStep true st c t dt shuffled 255 b3).1 j ≤ 255 := by
    intro j
    simp only [movementManagerStep]
    split
    · exact movement_apply_bounds st c t dt shuffled b3 hst hcnt1 hb3 j
    · exact hb3 j
  intro i
  simp only [LaserSimulator.update]
  have hd := apply_dimmer_le ((movementManagerStep true st c t dt shuffled 255 b3).1 i)
    c.dimmer (hb4 i).1
  exact ⟨hd.1, le_trans hd.2 (hb4 i).2⟩

/-- Witness for C4 at concrete inputs (default controls and cleared state). -/
theorem tick_brightness_in_range_witness :
    controlsValid defaultControls ∧
    (0 ≤ (LaserSimulator.update MovementEffect.reset_state defaultControls 0 0
        []).1 0 ∧
      (LaserSimulator.update MovementEffect.reset_state defaultControls 0 0
        []).1 0 ≤ 255) := by
  have hc : controlsValid defaultControls := by
    unfold controlsValid defaultControls
    norm_num
  have hst : moveStateValid MovementEffect.reset_state := by
    intro i
    exact ⟨by norm_num [MovementEffect.reset_state],
      by norm_num [MovementEffect.reset_state]⟩
  exact ⟨hc, tick_brightness_in_range MovementEffect.reset_state defaultControls
    0 0 [] hc hst 0⟩

/-- C5: every pipeline stage after VisualPreset is a multiplicative mask
that never increases a laser's brightness: the pulse stage, the strobe
stage, and Movement's final scroll-mask application (with in-range mask and
built values) each map brightness `b` to a value in `[?, b]`, and a laser at
brightness 0 entering the stage is still at 0 after it — a laser masked out
by the preset can never be turned back on. -/
theorem later_stages_never_increase :
    (∀ (c : ControlsState) (t : ℚ) (b : Fin 28 → ℤ) (i : Fin 28), 0 ≤ b i →
        PulseEffect.apply c t b i ≤ b i ∧
        (b i = 0 → PulseEffect.apply c t b i = 0)) ∧
    (∀ (c : ControlsState) (t : ℚ) (b : Fin 28 → ℤ) (i : Fin 28), 0 ≤ b i →
        StrobeEffect.apply c t b i ≤ b i ∧
        (b i = 0 → StrobeEffect.apply c t b i = 0)) ∧
    (∀ (c : ControlsState) (mask built b : Fin 28 → ℤ) (i : Fin 28),
        0 ≤ b i → 0 ≤ mask i → mask i ≤ 255 → 0 ≤ built i → built i ≤ 255 →
        MovementEffect.apply_scroll_mask c mask built 255 b i ≤ b i ∧
        (b i = 0 → MovementEffect.apply_scroll_mask c mask built 255 b i = 0)) := by
  refine ⟨?_, ?_, ?_⟩
  · intro c t b i h0
    have h := pulse_stage_le c t b i h0
    exact ⟨h.2, fun hz => by omega⟩
  · intro c t b i h0
    have h := strobe_stage_le c t b i h0
    exact ⟨h.2, fun hz => by omega⟩
  · intro c mask built b i h0 hm0 hm1 hb0 hb1
    have h := apply_scroll_mask_le c mask built b i ⟨hm0, hm1⟩ ⟨hb0, hb1⟩ h0
    exact ⟨h.2, fun hz => by omega⟩

/-- Witness for C5 at concrete inputs. -/
theorem later_stages_never_increase_witness :
    PulseEffect.apply defaultControls 0 (fun _ => 100) 0 ≤ 100 ∧
    StrobeEffect.apply defaultControls 0 (fun _ => 100) 0 ≤ 100 ∧
    MovementEffect.apply_scroll_mask defaultControls (fun _ => 128)
      (fun _ => 0) 255 (fun _ => 100) 0 ≤ 100 := by
  refine ⟨?_, ?_, ?_⟩
  · exact (later_stages_never_increase.1 defaultControls 0 (fun _ => 100) 0
      (by norm_num)).1
  · exact (later_stages_never_increase.2.1 defaultControls 0 (fun _ => 100) 0
      (by norm_num)).1
  · exact (later_stages_never_increase.2.2 defaultControls (fun _ => 128)
      (fun _ => 0) (fun _ => 100) 0 (by norm_num) (by norm_num) (by norm_num)
      (by norm_num) (by norm_num)).1
